import Mathlib

/-!
# Verification of `pipeline_dp/budget_accounting.py`

Shallow embedding of the budget-accounting core of PipelineDP.

Modelling conventions:
* Python floats are modelled as elements of a `LinearOrderedField` (instantiated
  at `ℚ` for executable witnesses and at `ℝ` where `math.sqrt(2)` matters).
* Mutable Python objects are modelled by explicit state passing: the
  `BudgetAccountant` record is the whole mutable state.  Scopes hold indices
  into the accountant's mechanism arena (`mechanisms`); this realises the
  aliasing of `MechanismSpecInternal` objects shared between the global
  registry and every enclosing open scope.
* Raising an exception is modelled with `Except String`; an operation returns
  the state reached at the moment of the raise together with the error.
* The PLD composition collaborator (`_compose_distributions` followed by
  `get_epsilon_for_delta`) is an external library; it is abstracted as a
  function `f : α → α` from a trial noise standard deviation to the composed
  epsilon at `total_delta`, exactly as the spec models it.
* The two potentially unbounded loops of `PLDBudgetAccountant`
  (`_calculate_max_noise_std` and the binary-search loop of
  `_find_minimum_noise_std`) take an explicit fuel argument; running out of
  fuel is an error, so "the Python loop terminates" is rendered as
  "some fuel makes the Lean function succeed".
-/

set_option linter.unusedVariables false
set_option linter.unusedSectionVars false

namespace BudgetAccounting

variable {α : Type} [LinearOrderedField α]

/-- External enum `MechanismType` (closed set, per the spec's §3). -/
inductive MechanismType where
  | LAPLACE
  | GAUSSIAN
  | GENERIC
  deriving DecidableEq, Repr

/-- `MechanismSpec` dataclass: the caller-visible lazy handle.  The three
underscore fields start as `None` (here `none`) and are written by
`compute_budgets`. -/
structure MechanismSpec (α : Type) where
  mechanism_type : MechanismType
  _noise_standard_deviation : Option α := none
  _eps : Option α := none
  _delta : Option α := none
  _count : ℕ := 1
  deriving DecidableEq

/-- Property getter `MechanismSpec.noise_standard_deviation`: raises
`AssertionError` while the field is still `None`. -/
def MechanismSpec.noise_standard_deviation (s : MechanismSpec α) : Except String α :=
  match s._noise_standard_deviation with
  | none => .error "Noise standard deviation is not calculated yet."
  | some v => .ok v

/-- Property getter `MechanismSpec.eps`. -/
def MechanismSpec.eps (s : MechanismSpec α) : Except String α :=
  match s._eps with
  | none => .error "Privacy budget is not calculated yet."
  | some v => .ok v

/-- Property getter `MechanismSpec.delta`. -/
def MechanismSpec.delta (s : MechanismSpec α) : Except String α :=
  match s._delta with
  | none => .error "Privacy budget is not calculated yet."
  | some v => .ok v

/-- Property getter `MechanismSpec.count`. -/
def MechanismSpec.count (s : MechanismSpec α) : ℕ := s._count

/-- `MechanismSpec.set_eps_delta`: writes `_eps` and `_delta`.  (The Python
`eps is None` guard is unrepresentable here because `eps : α` is not
optional.) -/
def MechanismSpec.set_eps_delta (s : MechanismSpec α) (eps : α) (delta : Option α) :
    MechanismSpec α :=
  { s with _eps := some eps, _delta := delta }

/-- `MechanismSpec.use_delta`: every type except `LAPLACE` uses delta. -/
def MechanismSpec.use_delta (s : MechanismSpec α) : Bool :=
  match s.mechanism_type with
  | .LAPLACE => false
  | _ => true

/-- `MechanismSpecInternal` dataclass: sensitivity and the mutable weight. -/
structure MechanismSpecInternal (α : Type) where
  sensitivity : α
  weight : α
  mechanism_spec : MechanismSpec α
  deriving DecidableEq

/-- `BudgetAccountantScope` object.  `mechanisms` holds arena indices into the
accountant's global `mechanisms` list (the Python object holds shared
references instead). -/
structure BudgetAccountantScope (α : Type) where
  weight : α
  _index_aggregation_scope : Option ℕ := none
  _epsilon : Option α := none
  _delta : Option α := none
  mechanisms : List ℕ := []
  deriving DecidableEq

/-- Property `BudgetAccountantScope.is_aggregation_scope`. -/
def BudgetAccountantScope.is_aggregation_scope (s : BudgetAccountantScope α) : Bool :=
  s._index_aggregation_scope.isSome

/-- The mutable state of a `BudgetAccountant` (both concrete subclasses share
this record; `minimum_noise_std` is only ever touched by the PLD subclass). -/
structure BudgetAccountant (α : Type) where
  total_epsilon : α
  total_delta : α
  _n_aggregations : Option ℕ := none
  _aggregation_weights : Option (List α) := none
  _scopes_stack : List (BudgetAccountantScope α) := []
  mechanisms : List (MechanismSpecInternal α) := []
  _finalized : Bool := false
  _next_aggregation_index : ℕ := 0
  _inside_aggregation_scope : Bool := false
  minimum_noise_std : Option α := none
  deriving DecidableEq

/-- The state produced by the shared `BudgetAccountant.__init__` body (the
`ValueError`s it can raise concern only the constructor arguments and are not
needed by any claim, so construction is modelled total). -/
def initState (total_epsilon total_delta : α) (n_aggregations : Option ℕ)
    (aggregation_weights : Option (List α)) : BudgetAccountant α :=
  { total_epsilon := total_epsilon
    total_delta := total_delta
    _n_aggregations := n_aggregations
    _aggregation_weights := aggregation_weights }

/-- Python truthiness of `self._n_aggregations` (`None` and `0` are falsy). -/
def nAggTruthy (st : BudgetAccountant α) : Bool :=
  match st._n_aggregations with
  | some n => n != 0
  | none => false

/-- Python truthiness of `self._aggregation_weights` (`None` and `[]` are
falsy). -/
def aggWeightsTruthy (st : BudgetAccountant α) : Bool :=
  match st._aggregation_weights with
  | some ws => !ws.isEmpty
  | none => false

/-- `BudgetAccountantScope._compute_budget_for_aggregation_scope`, returning
the `(epsilon, delta)` pair eagerly stored on an aggregation scope. -/
def computeBudgetForAggregationScope (st : BudgetAccountant α) (idx : ℕ) :
    Option α × Option α :=
  match st._n_aggregations with
  | some n =>
      let budget_ratio := 1 / (n : α)
      (some (st.total_epsilon * budget_ratio), some (st.total_delta * budget_ratio))
  | none =>
      match st._aggregation_weights with
      | some weights =>
          let sum_weights := weights.sum
          let budget_ratio := weights.getD idx 0 / sum_weights
          (some (st.total_epsilon * budget_ratio), some (st.total_delta * budget_ratio))
      | none => (none, none)

/-- The `BudgetAccountantScope.__init__` body. -/
def mkScope (st : BudgetAccountant α) (weight : α) (index_aggregation_scope : Option ℕ) :
    BudgetAccountantScope α :=
  match index_aggregation_scope with
  | some idx =>
      let (e, d) := computeBudgetForAggregationScope st idx
      { weight := weight, _index_aggregation_scope := some idx, _epsilon := e, _delta := d }
  | none => { weight := weight }

/-- `BudgetAccountant.scope(weight, aggregation_scope)`: validates aggregation
scopes and constructs the scope object (it does not push it on the stack).
Note that `_next_aggregation_index` is incremented before the remaining
validation, exactly as in the source. -/
def BudgetAccountant.scope (st : BudgetAccountant α) (weight : α)
    (aggregation_scope : Bool) :
    BudgetAccountant α × Except String (BudgetAccountantScope α) :=
  if aggregation_scope && (nAggTruthy st || aggWeightsTruthy st) then
    if st._inside_aggregation_scope then
      (st, .error "Aggregation scopes can not be nested.")
    else
      let aggregation_index := st._next_aggregation_index
      let st1 := { st with _next_aggregation_index := aggregation_index + 1 }
      if nAggTruthy st then
        match st._n_aggregations with
        | some n =>
            if aggregation_index ≥ n then
              (st1, .error "Exceeded the number of allowed aggregations.")
            else if weight ≠ 1 then
              (st1, .error "When n_aggregations is set in the constructor of BudgetAccountant, all aggregation weights have to be 1.")
            else
              (st1, .ok (mkScope st1 weight (some aggregation_index)))
        | none => (st1, .error "It should not happen.")
      else
        match st._aggregation_weights with
        | some ws =>
            if aggregation_index ≥ ws.length then
              (st1, .error "Exceeded the number of allowed aggregations.")
            else if weight ≠ ws.getD aggregation_index 0 then
              (st1, .error "The provided weight for the aggregation does not match aggregation_weights.")
            else
              (st1, .ok (mkScope st1 weight (some aggregation_index)))
        | none => (st1, .error "It should not happen.")
  else
    (st, .ok (mkScope st weight none))

/-- `BudgetAccountant._register_mechanism`: appends to the global registry and
to the membership list of every currently open scope. -/
def BudgetAccountant.register_mechanism (st : BudgetAccountant α)
    (mechanism : MechanismSpecInternal α) : BudgetAccountant α :=
  let idx := st.mechanisms.length
  { st with
      mechanisms := st.mechanisms ++ [mechanism]
      _scopes_stack := st._scopes_stack.map
        (fun s => { s with mechanisms := s.mechanisms ++ [idx] }) }

/-- `BudgetAccountant._enter_scope` (the `__enter__` side effect). -/
def BudgetAccountant.enter_scope (st : BudgetAccountant α)
    (scope : BudgetAccountantScope α) : BudgetAccountant α :=
  { st with
      _inside_aggregation_scope :=
        if scope.is_aggregation_scope then true else st._inside_aggregation_scope
      _scopes_stack := st._scopes_stack ++ [scope] }

/-- Sum of the weights of the arena entries named by `idxs` (the Python
`sum([m.weight for m in self.mechanisms])` over the scope's shared
references). -/
def sumIndexedWeights (mechs : List (MechanismSpecInternal α)) (idxs : List ℕ) : α :=
  (idxs.map (fun i => ((mechs[i]?).map (·.weight)).getD 0)).sum

/-- Multiply the weight of the arena entry at index `i` by `factor`. -/
def scaleOneWeight (mechs : List (MechanismSpecInternal α)) (i : ℕ) (factor : α) :
    List (MechanismSpecInternal α) :=
  match mechs[i]? with
  | some m => mechs.set i { m with weight := m.weight * factor }
  | none => mechs

/-- Multiply the weight of every arena entry named by `idxs` by `factor`
(the mutation loop of `_normalise_mechanism_weights`). -/
def scaleWeights (mechs : List (MechanismSpecInternal α)) (idxs : List ℕ) (factor : α) :
    List (MechanismSpecInternal α) :=
  idxs.foldl (fun ms i => scaleOneWeight ms i factor) mechs

/-- `BudgetAccountantScope._normalise_mechanism_weights`.  A Python
`ZeroDivisionError` (total weight exactly `0` with a non-empty membership
list) is modelled as an error. -/
def normaliseMechanismWeights (scope : BudgetAccountantScope α)
    (st : BudgetAccountant α) : BudgetAccountant α × Except String Unit :=
  if scope.mechanisms.isEmpty then (st, .ok ())
  else
    let total_weight := sumIndexedWeights st.mechanisms scope.mechanisms
    if total_weight = 0 then (st, .error "float division by zero")
    else
      let normalisation_factor := scope.weight / total_weight
      ({ st with mechanisms := scaleWeights st.mechanisms scope.mechanisms normalisation_factor },
       .ok ())

/-- `BudgetAccountantScope.__exit__`: `_exit_scope` (pop, clear the
aggregation flag) followed by `_normalise_mechanism_weights` on the popped
scope.  Popping an empty stack is the Python `IndexError`. -/
def exitScope (st : BudgetAccountant α) : BudgetAccountant α × Except String Unit :=
  match st._scopes_stack.getLast? with
  | none => (st, .error "pop from empty list")
  | some scope =>
      let st1 := { st with
        _scopes_stack := st._scopes_stack.dropLast
        _inside_aggregation_scope :=
          if scope.is_aggregation_scope then false else st._inside_aggregation_scope }
      normaliseMechanismWeights scope st1

/-- `BudgetAccountant._check_number_aggregation_scopes`. -/
def checkNumberAggregationScopes (st : BudgetAccountant α) : Except String Unit :=
  let aggregation_scopes := st._next_aggregation_index
  if nAggTruthy st && st._n_aggregations != some aggregation_scopes then
    .error "In the constructor of BudgetAccountant n_aggregations differs from the actual number of aggregations."
  else if st._aggregation_weights.isSome
      && (st._aggregation_weights.map List.length) != some aggregation_scopes then
    .error "In the constructor of BudgetAccountant len(aggregation_weights) differs from the actual number of aggregations."
  else .ok ()

/-- `BudgetAccountant._finalize`: aggregation-count check, double-finalize
check, then set the one-way flag. -/
def BudgetAccountant.finalize (st : BudgetAccountant α) :
    BudgetAccountant α × Except String Unit :=
  match checkNumberAggregationScopes st with
  | .error e => (st, .error e)
  | .ok () =>
      if st._finalized then (st, .error "compute_budgets can not be called twice.")
      else ({ st with _finalized := true }, .ok ())

/-- `NaiveBudgetAccountant.request_budget`. -/
def NaiveBudgetAccountant.request_budget (st : BudgetAccountant α)
    (mechanism_type : MechanismType) (sensitivity : α := 1) (weight : α := 1)
    (count : ℕ := 1) (noise_standard_deviation : Option α := none) :
    BudgetAccountant α × Except String (MechanismSpec α) :=
  if st._finalized then
    (st, .error "request_budget() is called after compute_budgets(). Please ensure that compute_budgets() is called after DP aggregations.")
  else if noise_standard_deviation.isSome then
    (st, .error "Count and noise standard deviation have not been implemented yet.")
  else if mechanism_type = MechanismType.GAUSSIAN ∧ st.total_delta = 0 then
    (st, .error "The Gaussian mechanism requires that the pipeline delta is greater than 0")
  else
    let mechanism_spec : MechanismSpec α := { mechanism_type := mechanism_type, _count := count }
    let mechanism_spec_internal : MechanismSpecInternal α :=
      { mechanism_spec := mechanism_spec, sensitivity := sensitivity, weight := weight }
    (st.register_mechanism mechanism_spec_internal, .ok mechanism_spec)

/-- `PLDBudgetAccountant.request_budget` (additionally rejects `count != 1`;
the created spec always has `_count = 1`). -/
def PLDBudgetAccountant.request_budget (st : BudgetAccountant α)
    (mechanism_type : MechanismType) (sensitivity : α := 1) (weight : α := 1)
    (count : ℕ := 1) (noise_standard_deviation : Option α := none) :
    BudgetAccountant α × Except String (MechanismSpec α) :=
  if st._finalized then
    (st, .error "request_budget() is called after compute_budgets(). Please ensure that compute_budgets() is called after DP aggregations.")
  else if count ≠ 1 ∨ noise_standard_deviation.isSome then
    (st, .error "Count and noise standard deviation have not been implemented yet.")
  else if mechanism_type = MechanismType.GAUSSIAN ∧ st.total_delta = 0 then
    (st, .error "The Gaussian mechanism requires that the pipeline delta is greater than 0")
  else
    let mechanism_spec : MechanismSpec α := { mechanism_type := mechanism_type }
    let mechanism_spec_internal : MechanismSpecInternal α :=
      { mechanism_spec := mechanism_spec, sensitivity := sensitivity, weight := weight }
    (st.register_mechanism mechanism_spec_internal, .ok mechanism_spec)

/-- `total_weight_eps` accumulator of `NaiveBudgetAccountant.compute_budgets`:
sum of `weight * count` over all mechanisms. -/
def totalWeightEps (mechs : List (MechanismSpecInternal α)) : α :=
  (mechs.map (fun m => m.weight * (m.mechanism_spec.count : α))).sum

/-- `total_weight_delta` accumulator: sum of `weight * count` over the
mechanisms whose type uses delta. -/
def totalWeightDelta (mechs : List (MechanismSpecInternal α)) : α :=
  ((mechs.filter (fun m => m.mechanism_spec.use_delta)).map
    (fun m => m.weight * (m.mechanism_spec.count : α))).sum

/-- One iteration of the allocation loop of
`NaiveBudgetAccountant.compute_budgets`:
`eps = total_epsilon * weight / total_weight_eps` when the denominator is
truthy (non-zero) and `0` otherwise, and similarly for delta restricted to
delta-using mechanisms. -/
def naiveAllocOne (total_epsilon total_delta total_weight_eps total_weight_delta : α)
    (m : MechanismSpecInternal α) : MechanismSpecInternal α :=
  let eps := if total_weight_eps ≠ 0 then total_epsilon * m.weight / total_weight_eps else 0
  let delta :=
    if m.mechanism_spec.use_delta ∧ total_weight_delta ≠ 0 then
      total_delta * m.weight / total_weight_delta
    else 0
  { m with mechanism_spec := m.mechanism_spec.set_eps_delta eps (some delta) }

/-- The allocation loop of `NaiveBudgetAccountant.compute_budgets`. -/
def naiveAlloc (total_epsilon total_delta : α) (mechs : List (MechanismSpecInternal α)) :
    List (MechanismSpecInternal α) :=
  mechs.map (naiveAllocOne total_epsilon total_delta
    (totalWeightEps mechs) (totalWeightDelta mechs))

/-- `NaiveBudgetAccountant.compute_budgets`.  The "no budgets were requested"
warning is a non-fatal early return. -/
def NaiveBudgetAccountant.compute_budgets (st : BudgetAccountant α) :
    BudgetAccountant α × Except String Unit :=
  match st.finalize with
  | (st1, .error e) => (st1, .error e)
  | (st1, .ok ()) =>
      if st1.mechanisms.isEmpty then (st1, .ok ())
      else if !st1._scopes_stack.isEmpty then
        (st1, .error "Cannot call compute_budgets from within a budget scope.")
      else
        ({ st1 with mechanisms := naiveAlloc st1.total_epsilon st1.total_delta st1.mechanisms },
         .ok ())

/-- `PLDBudgetAccountant._calculate_max_noise_std`: starting from `1`, double
the candidate until the composed epsilon drops to at most `total_epsilon`.
`f` abstracts `sigma => compose_distributions(sigma).get_epsilon_for_delta(total_delta)`;
the fuel bounds the number of doublings. -/
def calculateMaxNoiseStd (f : α → α) (total_epsilon : α) :
    ℕ → α → Option α
  | 0, _ => none
  | fuel + 1, max_noise_std =>
      let m2 := max_noise_std * 2
      if f m2 ≤ total_epsilon then some m2
      else calculateMaxNoiseStd f total_epsilon fuel m2

/-- The binary-search loop of `PLDBudgetAccountant._find_minimum_noise_std`:
while `low + threshold < high`, test the midpoint; a sufficient midpoint
becomes the new `high`, otherwise the new `low`.  Returns the final
`(low, high)` pair; `none` when the fuel runs out with the loop guard still
true. -/
def bsearchNoiseStd (f : α → α) (total_epsilon threshold : α) :
    ℕ → α → α → Option (α × α)
  | 0, low, high => if low + threshold < high then none else some (low, high)
  | fuel + 1, low, high =>
      if low + threshold < high then
        let mid := (high - low) / 2 + low
        if f mid ≤ total_epsilon then bsearchNoiseStd f total_epsilon threshold fuel low mid
        else bsearchNoiseStd f total_epsilon threshold fuel mid high
      else some (low, high)

/-- `PLDBudgetAccountant._find_minimum_noise_std` with its hard-coded
threshold `1e-4`: bracket an upper bound by doubling, then binary search down
from `(0, maximum_noise_std)` and return the final `high`. -/
def findMinimumNoiseStd (f : α → α) (total_epsilon : α) (fuel1 fuel2 : ℕ) : Option α :=
  match calculateMaxNoiseStd f total_epsilon fuel1 1 with
  | none => none
  | some maximum_noise_std =>
      (bsearchNoiseStd f total_epsilon (1 / 10000) fuel2 0 maximum_noise_std).map (·.2)

/-- One iteration of the final assignment loop of
`PLDBudgetAccountant.compute_budgets`: store the calibrated noise standard
deviation and, for `GENERIC` mechanisms only, also `(epsilon_0, delta_0)`. -/
def pldAssignOne (s2 total_epsilon total_delta minimum_noise_std : α)
    (m : MechanismSpecInternal α) : MechanismSpecInternal α :=
  let mechanism_noise_std := m.sensitivity * minimum_noise_std / m.weight
  let spec1 := { m.mechanism_spec with _noise_standard_deviation := some mechanism_noise_std }
  if spec1.mechanism_type = MechanismType.GENERIC then
    let epsilon_0 := s2 / mechanism_noise_std
    let delta_0 := epsilon_0 / total_epsilon * total_delta
    { m with mechanism_spec := spec1.set_eps_delta epsilon_0 (some delta_0) }
  else { m with mechanism_spec := spec1 }

/-- The final assignment loop of `PLDBudgetAccountant.compute_budgets`,
with the Python `ZeroDivisionError`s (division by a zero weight, or in the
`GENERIC` branch by a zero noise std or zero `total_epsilon`) made explicit. -/
def pldAssignLoop (s2 total_epsilon total_delta minimum_noise_std : α) :
    List (MechanismSpecInternal α) → Except String (List (MechanismSpecInternal α))
  | [] => .ok []
  | m :: rest =>
      if m.weight = 0 then .error "float division by zero"
      else if m.mechanism_spec.mechanism_type = MechanismType.GENERIC ∧
          (m.sensitivity * minimum_noise_std / m.weight = 0 ∨ total_epsilon = 0) then
        .error "float division by zero"
      else
        (pldAssignLoop s2 total_epsilon total_delta minimum_noise_std rest).map
          (pldAssignOne s2 total_epsilon total_delta minimum_noise_std m :: ·)

/-- `PLDBudgetAccountant.compute_budgets`.  `s2` stands for `math.sqrt(2)`
(instantiated at `Real.sqrt 2` below); `f` abstracts the composed
epsilon-at-`total_delta` of the PLD collaborator as a function of the trial
noise standard deviation; `fuel1`/`fuel2` bound the two search loops. -/
def PLDBudgetAccountant.compute_budgets (s2 : α) (f : α → α) (fuel1 fuel2 : ℕ)
    (st : BudgetAccountant α) : BudgetAccountant α × Except String Unit :=
  match st.finalize with
  | (st1, .error e) => (st1, .error e)
  | (st1, .ok ()) =>
      if st1.mechanisms.isEmpty then (st1, .ok ())
      else if !st1._scopes_stack.isEmpty then
        (st1, .error "Cannot call compute_budgets from within a budget scope.")
      else
        let mnsResult : Except String α :=
          if st1.total_delta = 0 then
            if st1.total_epsilon = 0 then .error "float division by zero"
            else .ok ((st1.mechanisms.map (·.weight)).sum / st1.total_epsilon * s2)
          else
            match findMinimumNoiseStd f st1.total_epsilon fuel1 fuel2 with
            | some v => .ok v
            | none => .error "the noise search loop did not finish within the allotted fuel"
        match mnsResult with
        | .error e => (st1, .error e)
        | .ok minimum_noise_std =>
            match pldAssignLoop s2 st1.total_epsilon st1.total_delta minimum_noise_std
                st1.mechanisms with
            | .error e => ({ st1 with minimum_noise_std := some minimum_noise_std }, .error e)
            | .ok l =>
                ({ st1 with minimum_noise_std := some minimum_noise_std, mechanisms := l },
                 .ok ())

/-- One caller-visible operation on an accountant, for lifecycle claims. -/
inductive AccountantOp (α : Type) where
  | requestNaive (mechanism_type : MechanismType) (sensitivity weight : α) (count : ℕ)
      (noise_standard_deviation : Option α)
  | requestPLD (mechanism_type : MechanismType) (sensitivity weight : α) (count : ℕ)
      (noise_standard_deviation : Option α)
  | openScope (weight : α) (aggregation_scope : Bool)
  | closeScope
  | computeNaive
  | computePLD (s2 : α) (f : α → α) (fuel1 fuel2 : ℕ)

/-- The state reached after one operation (a raised exception leaves the state
the operation had built up to that point, as in Python). `openScope` performs
`scope(...)` followed by `__enter__` when creation succeeded. -/
def stepOp (op : AccountantOp α) (st : BudgetAccountant α) : BudgetAccountant α :=
  match op with
  | .requestNaive mt s w c n => (NaiveBudgetAccountant.request_budget st mt s w c n).1
  | .requestPLD mt s w c n => (PLDBudgetAccountant.request_budget st mt s w c n).1
  | .openScope w agg =>
      match st.scope w agg with
      | (st1, .ok sc) => st1.enter_scope sc
      | (st1, .error _) => st1
  | .closeScope => (exitScope st).1
  | .computeNaive => (NaiveBudgetAccountant.compute_budgets st).1
  | .computePLD s2 f n1 n2 => (PLDBudgetAccountant.compute_budgets s2 f n1 n2 st).1

/-- Run a sequence of operations from a given state. -/
def runOps (ops : List (AccountantOp α)) (st : BudgetAccountant α) : BudgetAccountant α :=
  ops.foldl (fun s op => stepOp op s) st

/-- The caller-invisible bookkeeping triple of one mechanism. -/
def specFields (m : MechanismSpecInternal α) : Option α × Option α × Option α :=
  (m.mechanism_spec._noise_standard_deviation, m.mechanism_spec._eps, m.mechanism_spec._delta)

/-! ### Concrete example states used by witnesses and counterexamples -/

/-- A Naive accountant holding a single Laplace mechanism applied twice
(`count = 2`, `weight = 1`) under `total_epsilon = 1`. -/
def exLaplaceCountTwo : BudgetAccountant ℚ :=
  { total_epsilon := 1, total_delta := 0,
    mechanisms := [{ sensitivity := 1, weight := 1,
                     mechanism_spec := { mechanism_type := .LAPLACE, _count := 2 } }] }

/-- A Naive accountant with a Laplace and a Gaussian mechanism of weights
`1` and `2`, under total budget `(3, 2)`. -/
def exLaplaceGaussian : BudgetAccountant ℚ :=
  { total_epsilon := 3, total_delta := 2,
    mechanisms := [{ sensitivity := 1, weight := 1,
                     mechanism_spec := { mechanism_type := .LAPLACE } },
                   { sensitivity := 1, weight := 2,
                     mechanism_spec := { mechanism_type := .GAUSSIAN } }] }

/-- An accountant inside one open scope of weight `1` whose single member
mechanism has weight `0`. -/
def exZeroWeightScope : BudgetAccountant ℚ :=
  { total_epsilon := 1, total_delta := 0,
    _scopes_stack := [{ weight := 1, mechanisms := [0] }],
    mechanisms := [{ sensitivity := 1, weight := 0,
                     mechanism_spec := { mechanism_type := .LAPLACE } }] }

/-- An accountant inside one open scope of weight `1` with two member
mechanisms of weights `1` and `3`. -/
def exTwoMechScope : BudgetAccountant ℚ :=
  { total_epsilon := 1, total_delta := 0,
    _scopes_stack := [{ weight := 1, mechanisms := [0, 1] }],
    mechanisms := [{ sensitivity := 1, weight := 1,
                     mechanism_spec := { mechanism_type := .LAPLACE } },
                   { sensitivity := 1, weight := 3,
                     mechanism_spec := { mechanism_type := .LAPLACE } }] }

/-- An accountant with one open scope and no registered mechanisms. -/
def exOpenScopeNoMech : BudgetAccountant ℚ :=
  { total_epsilon := 1, total_delta := 0, _scopes_stack := [{ weight := 1 }] }

/-- An accountant with one open scope and one registered mechanism. -/
def exOpenScopeOneMech : BudgetAccountant ℚ :=
  { total_epsilon := 1, total_delta := 0,
    _scopes_stack := [{ weight := 1, mechanisms := [0] }],
    mechanisms := [{ sensitivity := 1, weight := 1,
                     mechanism_spec := { mechanism_type := .LAPLACE } }] }

/-- An accountant whose `inside_aggregation_scope` flag is set and whose
constructor declared `n_aggregations = 2`. -/
def exInsideAggConstrained : BudgetAccountant ℚ :=
  { total_epsilon := 1, total_delta := 0, _n_aggregations := some 2,
    _next_aggregation_index := 1, _inside_aggregation_scope := true }

/-- An accountant whose `inside_aggregation_scope` flag is set and whose
constructor declared no aggregation constraint. -/
def exInsideAggUnconstrained : BudgetAccountant ℚ :=
  { total_epsilon := 1, total_delta := 0, _inside_aggregation_scope := true }

/-- A fresh accountant with a single Laplace mechanism, ready to finalize. -/
def exOneLaplace : BudgetAccountant ℚ :=
  { total_epsilon := 1, total_delta := 0,
    mechanisms := [{ sensitivity := 1, weight := 1,
                     mechanism_spec := { mechanism_type := .LAPLACE } }] }

/-- An already-finalized accountant with a single Laplace mechanism. -/
def exFinalized : BudgetAccountant ℚ :=
  { total_epsilon := 1, total_delta := 0, _finalized := true,
    mechanisms := [{ sensitivity := 1, weight := 1,
                     mechanism_spec := { mechanism_type := .LAPLACE } }] }

/-- A PLD accountant with `total_delta = 0` holding one Laplace and one
generic mechanism. -/
def exLaplaceGenericPLD : BudgetAccountant ℚ :=
  { total_epsilon := 2, total_delta := 0,
    mechanisms := [{ sensitivity := 1, weight := 1,
                     mechanism_spec := { mechanism_type := .LAPLACE } },
                   { sensitivity := 1, weight := 1,
                     mechanism_spec := { mechanism_type := .GENERIC } }] }

/-- The PLD accountant of the spec's delta-zero example: one Laplace
mechanism with sensitivity 1 and weight 1, `total_epsilon = 2`,
`total_delta = 0`. -/
def exPLDDeltaZero : BudgetAccountant ℝ :=
  { total_epsilon := 2, total_delta := 0,
    mechanisms := [{ sensitivity := 1, weight := 1,
                     mechanism_spec := { mechanism_type := .LAPLACE } }] }

/-- A PLD accountant with `total_delta = 0` holding one generic mechanism. -/
def exPLDGeneric : BudgetAccountant ℝ :=
  { total_epsilon := 2, total_delta := 0,
    mechanisms := [{ sensitivity := 1, weight := 1,
                     mechanism_spec := { mechanism_type := .GENERIC } }] }

/-! ### Helper lemmas -/

/-- `_finalize` either performs the transition to the finalized state or
raises, leaving the state unchanged. -/
lemma finalize_spec (st : BudgetAccountant α) :
    (checkNumberAggregationScopes st = .ok () ∧ st._finalized = false ∧
      st.finalize = ({ st with _finalized := true }, .ok ())) ∨
    (∃ e, st.finalize = (st, .error e)) := by
  unfold BudgetAccountant.finalize
  cases hc : checkNumberAggregationScopes st with
  | error e => exact Or.inr ⟨e, rfl⟩
  | ok u =>
      cases u
      by_cases hf : st._finalized = true
      · exact Or.inr ⟨"compute_budgets can not be called twice.", by simp [hf]⟩
      · exact Or.inl ⟨rfl, by simpa using hf, by simp [hf]⟩

/-- Successful `NaiveBudgetAccountant.compute_budgets` with a non-empty
registry: the preconditions that must have held and the exact result. -/
lemma naive_compute_ok (st : BudgetAccountant α)
    (h : (NaiveBudgetAccountant.compute_budgets st).2 = .ok ())
    (hm : st.mechanisms ≠ []) :
    st._scopes_stack = [] ∧ st._finalized = false ∧
    NaiveBudgetAccountant.compute_budgets st =
      ({ st with _finalized := true,
                 mechanisms := naiveAlloc st.total_epsilon st.total_delta st.mechanisms },
       .ok ()) := by
  unfold NaiveBudgetAccountant.compute_budgets at h ⊢
  rcases finalize_spec st with ⟨hc, hf, heq⟩ | ⟨e, heq⟩
  · rw [heq] at h ⊢
    have hme : ({ st with _finalized := true } :
        BudgetAccountant α).mechanisms.isEmpty = false := by
      simpa [List.isEmpty_iff] using hm
    simp only [hme, Bool.false_eq_true, if_false] at h ⊢
    by_cases hs : ({ st with _finalized := true } :
        BudgetAccountant α)._scopes_stack.isEmpty
    · have hs' : st._scopes_stack = [] := by simpa [List.isEmpty_iff] using hs
      exact ⟨hs', hf, by simp [hs]⟩
    · simp [hs] at h
  · rw [heq] at h
    simp at h

/-! ### Claim C1: the Naive proportional split -/

/-- The allocation map preserves `use_delta`, so it commutes with the
delta-using filter. -/
lemma alloc_filter_use_delta (e d we wd : α) (mechs : List (MechanismSpecInternal α)) :
    (mechs.map (naiveAllocOne e d we wd)).filter (fun m => m.mechanism_spec.use_delta)
      = (mechs.filter (fun m => m.mechanism_spec.use_delta)).map (naiveAllocOne e d we wd) := by
  rw [List.filter_map]
  exact congrArg _ (List.filter_congr (fun m _ => rfl))

/-- Claim C1 (amended): on a successful `NaiveBudgetAccountant.compute_budgets()`
with at least one registered mechanism, every mechanism is assigned
`eps = total_epsilon * weight / W_eps` (`0` if `W_eps = 0`) and
`delta = total_delta * weight / W_delta` if it uses delta and `W_delta ≠ 0`,
else `0`; consequently the eps values weighted by their counts sum to
`total_epsilon`, and the delta values of delta-using mechanisms weighted by
their counts sum to `total_delta` (when the respective denominators are
non-zero).  [The unweighted sums of the original claim fail as soon as some
`count` exceeds 1, see the counterexample.] -/
theorem naive_compute_budgets_allocation (st : BudgetAccountant α)
    (h : (NaiveBudgetAccountant.compute_budgets st).2 = .ok ())
    (hm : st.mechanisms ≠ []) :
    (∀ i (hi : i < st.mechanisms.length)
        (hi' : i < (NaiveBudgetAccountant.compute_budgets st).1.mechanisms.length),
      ((NaiveBudgetAccountant.compute_budgets st).1.mechanisms.get
          ⟨i, hi'⟩).mechanism_spec._eps
          = some (if totalWeightEps st.mechanisms ≠ 0 then
              st.total_epsilon * (st.mechanisms.get ⟨i, hi⟩).weight /
                totalWeightEps st.mechanisms
            else 0) ∧
      ((NaiveBudgetAccountant.compute_budgets st).1.mechanisms.get
          ⟨i, hi'⟩).mechanism_spec._delta
          = some (if (st.mechanisms.get ⟨i, hi⟩).mechanism_spec.use_delta ∧
                totalWeightDelta st.mechanisms ≠ 0 then
              st.total_delta * (st.mechanisms.get ⟨i, hi⟩).weight /
                totalWeightDelta st.mechanisms
            else 0)) ∧
    (totalWeightEps st.mechanisms ≠ 0 →
      (((NaiveBudgetAccountant.compute_budgets st).1.mechanisms).map
          (fun m => m.mechanism_spec._eps.getD 0 * (m.mechanism_spec.count : α))).sum
        = st.total_epsilon) ∧
    (totalWeightDelta st.mechanisms ≠ 0 →
      ((((NaiveBudgetAccountant.compute_budgets st).1.mechanisms).filter
          (fun m => m.mechanism_spec.use_delta)).map
          (fun m => m.mechanism_spec._delta.getD 0 * (m.mechanism_spec.count : α))).sum
        = st.total_delta) := by
  obtain ⟨hs, hf, heq⟩ := naive_compute_ok st h hm
  rw [heq]
  refine ⟨?_, ?_, ?_⟩
  · intro i hi hi'
    simp [naiveAlloc, naiveAllocOne, MechanismSpec.set_eps_delta]
  · intro hWe
    simp only [naiveAlloc, List.map_map]
    rw [List.map_congr_left (g :=
      fun m => st.total_epsilon / totalWeightEps st.mechanisms *
        (m.weight * (m.mechanism_spec.count : α)))]
    · rw [List.sum_map_mul_left]
      exact div_mul_cancel₀ st.total_epsilon hWe
    · intro m hmem
      simp [naiveAllocOne, MechanismSpec.set_eps_delta, MechanismSpec.count, hWe,
        Function.comp]
      ring
  · intro hWd
    simp only [naiveAlloc]
    rw [alloc_filter_use_delta, List.map_map]
    rw [List.map_congr_left (g :=
      fun m => st.total_delta / totalWeightDelta st.mechanisms *
        (m.weight * (m.mechanism_spec.count : α)))]
    · rw [List.sum_map_mul_left]
      exact div_mul_cancel₀ st.total_delta hWd
    · intro m hmem
      have hud : m.mechanism_spec.use_delta = true := (List.mem_filter.mp hmem).2
      simp [naiveAllocOne, MechanismSpec.set_eps_delta, MechanismSpec.count, hWd, hud,
        Function.comp]
      ring

/-- Claim C1, counterexample: one Laplace mechanism with `count = 2` and
`weight = 1` under `total_epsilon = 1` receives `eps = 1/2` (the denominator
`W_eps = weight * count = 2` is positive), so the plain sum of the eps values
is `1/2 ≠ 1 = total_epsilon` even though `compute_budgets()` succeeds. -/
theorem naive_eps_sum_counterexample :
    (NaiveBudgetAccountant.compute_budgets exLaplaceCountTwo).2 = .ok () ∧
    0 < totalWeightEps exLaplaceCountTwo.mechanisms ∧
    (((NaiveBudgetAccountant.compute_budgets exLaplaceCountTwo).1.mechanisms).map
        (fun m => m.mechanism_spec._eps.getD 0)).sum ≠ exLaplaceCountTwo.total_epsilon := by
  refine ⟨?_, ?_, ?_⟩ <;>
    norm_num [NaiveBudgetAccountant.compute_budgets, exLaplaceCountTwo,
      BudgetAccountant.finalize, checkNumberAggregationScopes, nAggTruthy, aggWeightsTruthy,
      naiveAlloc, naiveAllocOne, totalWeightEps, totalWeightDelta,
      MechanismSpec.set_eps_delta, MechanismSpec.use_delta, MechanismSpec.count]

/-- Claim C1, witness: a Laplace mechanism of weight 1 and a Gaussian
mechanism of weight 2 under total budget `(3, 2)`: the count-weighted eps
values sum to `3` and the count-weighted delta values of the delta-using
mechanisms sum to `2`. -/
theorem naive_compute_budgets_allocation_witness :
    ((((NaiveBudgetAccountant.compute_budgets exLaplaceGaussian).1.mechanisms).map
        (fun m => m.mechanism_spec._eps.getD 0 * (m.mechanism_spec.count : ℚ))).sum
      = exLaplaceGaussian.total_epsilon) ∧
    (((((NaiveBudgetAccountant.compute_budgets exLaplaceGaussian).1.mechanisms).filter
        (fun m => m.mechanism_spec.use_delta)).map
        (fun m => m.mechanism_spec._delta.getD 0 * (m.mechanism_spec.count : ℚ))).sum
      = exLaplaceGaussian.total_delta) := by
  have hok : (NaiveBudgetAccountant.compute_budgets exLaplaceGaussian).2 = .ok () := by
    norm_num [NaiveBudgetAccountant.compute_budgets, exLaplaceGaussian,
      BudgetAccountant.finalize, checkNumberAggregationScopes, nAggTruthy, aggWeightsTruthy]
  have hne : exLaplaceGaussian.mechanisms ≠ [] := by
    simp [exLaplaceGaussian]
  have hWe : totalWeightEps exLaplaceGaussian.mechanisms ≠ 0 := by
    norm_num [totalWeightEps, exLaplaceGaussian, MechanismSpec.count]
  have hWd : totalWeightDelta exLaplaceGaussian.mechanisms ≠ 0 := by
    norm_num [totalWeightDelta, exLaplaceGaussian, MechanismSpec.count,
      MechanismSpec.use_delta]
  exact ⟨(naive_compute_budgets_allocation exLaplaceGaussian hok hne).2.1 hWe,
    (naive_compute_budgets_allocation exLaplaceGaussian hok hne).2.2 hWd⟩

/-! ### Claim C2: weight normalisation on scope exit -/

/-- Unfolding of `scaleWeights` on a cons index list. -/
lemma scaleWeights_cons (mechs : List (MechanismSpecInternal α)) (i : ℕ) (idxs : List ℕ)
    (factor : α) :
    scaleWeights mechs (i :: idxs) factor =
      scaleWeights (scaleOneWeight mechs i factor) idxs factor := rfl

/-- `scaleOneWeight` leaves all other indices untouched. -/
lemma scaleOneWeight_getElem_ne (mechs : List (MechanismSpecInternal α)) (i j : ℕ)
    (factor : α) (hij : i ≠ j) :
    (scaleOneWeight mechs i factor)[j]? = mechs[j]? := by
  unfold scaleOneWeight
  cases h : mechs[i]? with
  | none => rfl
  | some m => exact List.getElem?_set_ne hij

/-- `scaleOneWeight` multiplies the weight at its index. -/
lemma scaleOneWeight_getElem_self (mechs : List (MechanismSpecInternal α)) (i : ℕ)
    (factor : α) (hi : i < mechs.length) :
    (scaleOneWeight mechs i factor)[i]? =
      (mechs[i]?).map (fun m => { m with weight := m.weight * factor }) := by
  unfold scaleOneWeight
  rw [List.getElem?_eq_getElem hi]
  simpa using List.getElem?_set_eq_of_lt _ (by simpa using hi)

/-- `scaleOneWeight` preserves the arena length. -/
lemma scaleOneWeight_length (mechs : List (MechanismSpecInternal α)) (i : ℕ) (factor : α) :
    (scaleOneWeight mechs i factor).length = mechs.length := by
  unfold scaleOneWeight
  cases h : mechs[i]? <;> simp

/-- `scaleWeights` leaves indices outside `idxs` untouched. -/
lemma scaleWeights_getElem_not_mem (mechs : List (MechanismSpecInternal α)) (idxs : List ℕ)
    (factor : α) (j : ℕ) (hj : j ∉ idxs) :
    (scaleWeights mechs idxs factor)[j]? = mechs[j]? := by
  induction idxs generalizing mechs with
  | nil => rfl
  | cons i rest ih =>
      rw [scaleWeights_cons, ih _ (fun hmem => hj (List.mem_cons_of_mem i hmem)),
        scaleOneWeight_getElem_ne]
      exact fun hij => hj (hij ▸ List.mem_cons_self i rest)

/-- On a duplicate-free index list, `scaleWeights` multiplies exactly the
member weights by `factor`. -/
lemma scaleWeights_getElem_mem (mechs : List (MechanismSpecInternal α)) (idxs : List ℕ)
    (factor : α) (j : ℕ) (hnd : idxs.Nodup) (hj : j ∈ idxs) (hlt : j < mechs.length) :
    (scaleWeights mechs idxs factor)[j]? =
      (mechs[j]?).map (fun m => { m with weight := m.weight * factor }) := by
  induction idxs generalizing mechs with
  | nil => cases hj
  | cons i rest ih =>
      obtain ⟨hni, hndr⟩ := List.nodup_cons.mp hnd
      rw [scaleWeights_cons]
      rcases List.mem_cons.mp hj with hji | hjr
      · subst hji
        rw [scaleWeights_getElem_not_mem _ _ _ _ hni]
        exact scaleOneWeight_getElem_self mechs j factor hlt
      · have hij : i ≠ j := fun hh => hni (hh ▸ hjr)
        rw [ih _ hndr hjr (by rwa [scaleOneWeight_length]),
          scaleOneWeight_getElem_ne _ _ _ _ hij]

/-- Claim C2 (amended): on scope exit, with `S` the sum of the weights of the
mechanisms registered under the exiting scope: if the scope registered no
mechanism, exit succeeds and is a no-op on the weights; if `S ≠ 0`, exit
succeeds and multiplies each member weight by `scope.weight / S`; but if the
member list is non-empty while `S = 0`, exit raises a `ZeroDivisionError`
(so the original "`S = 0` is a safe no-op" only holds for an empty member
list). -/
theorem scope_exit_normalisation (st : BudgetAccountant α) (s : BudgetAccountantScope α)
    (hstack : st._scopes_stack.getLast? = some s)
    (hnd : s.mechanisms.Nodup)
    (hbound : ∀ i ∈ s.mechanisms, i < st.mechanisms.length) :
    (s.mechanisms = [] →
      (exitScope st).2 = .ok () ∧ (exitScope st).1.mechanisms = st.mechanisms) ∧
    (sumIndexedWeights st.mechanisms s.mechanisms ≠ 0 →
      (exitScope st).2 = .ok () ∧
      ∀ i ∈ s.mechanisms,
        ((exitScope st).1.mechanisms[i]?).map (·.weight) =
          (st.mechanisms[i]?).map
            (fun m => m.weight * (s.weight / sumIndexedWeights st.mechanisms s.mechanisms))) ∧
    (s.mechanisms ≠ [] → sumIndexedWeights st.mechanisms s.mechanisms = 0 →
      (exitScope st).2 = .error "float division by zero") := by
  unfold exitScope
  rw [hstack]
  unfold normaliseMechanismWeights
  refine ⟨?_, ?_, ?_⟩
  · intro hempty
    simp [hempty]
  · intro hS
    have hne : ¬s.mechanisms.isEmpty := by
      rcases hempty : s.mechanisms with _ | _
      · rw [hempty] at hS
        simp [sumIndexedWeights] at hS
      · simp
    simp only [hne, Bool.false_eq_true, if_false, hS, if_neg hS]
    refine ⟨trivial, ?_⟩
    intro i hi
    rw [scaleWeights_getElem_mem _ _ _ _ hnd hi (hbound i hi)]
    cases h : st.mechanisms[i]? with
    | none => rfl
    | some m => rfl
  · intro hne hS
    have hne' : ¬s.mechanisms.isEmpty := by
      simpa [List.isEmpty_iff] using hne
    simp [hne', hS]

/-- Claim C2, counterexample: a scope of weight `1` whose single member
mechanism has weight `0`.  The member sum `S` is `0` and the member list is
non-empty, so `__exit__` raises `ZeroDivisionError` instead of being a
no-op. -/
theorem scope_exit_zero_weight_counterexample :
    (exZeroWeightScope._scopes_stack.map (·.mechanisms)) = [[0]] ∧
    sumIndexedWeights exZeroWeightScope.mechanisms [0] = 0 ∧
    (exitScope exZeroWeightScope).2 = .error "float division by zero" := by
  refine ⟨rfl, ?_, ?_⟩ <;>
    norm_num [sumIndexedWeights, exZeroWeightScope, exitScope,
      normaliseMechanismWeights, scaleWeights,
      BudgetAccountantScope.is_aggregation_scope]

/-- Claim C2, witness: a scope of weight `1` over member weights `[1, 3]`:
exit succeeds and rescales the weights to `[1/4, 3/4]`. -/
theorem scope_exit_normalisation_witness :
    (sumIndexedWeights exTwoMechScope.mechanisms
        ({ weight := 1, mechanisms := [0, 1] } : BudgetAccountantScope ℚ).mechanisms ≠ 0) ∧
    ((exitScope exTwoMechScope).2 = .ok () ∧
      ∀ i ∈ ({ weight := 1, mechanisms := [0, 1] } :
          BudgetAccountantScope ℚ).mechanisms,
        ((exitScope exTwoMechScope).1.mechanisms[i]?).map (·.weight) =
          (exTwoMechScope.mechanisms[i]?).map
            (fun m => m.weight * ((1 : ℚ) /
              sumIndexedWeights exTwoMechScope.mechanisms [0, 1]))) ∧
    ((exitScope exTwoMechScope).1.mechanisms.map (·.weight)) = [1 / 4, 3 / 4] := by
  have hS : sumIndexedWeights exTwoMechScope.mechanisms [0, 1] ≠ 0 := by
    norm_num [sumIndexedWeights, exTwoMechScope]
  refine ⟨hS,
    (scope_exit_normalisation exTwoMechScope { weight := 1, mechanisms := [0, 1] }
      (by simp [exTwoMechScope]) (by simp) ?_).2.1 hS, ?_⟩
  · intro i hi
    fin_cases hi <;> norm_num [exTwoMechScope]
  · norm_num [exitScope, exTwoMechScope, normaliseMechanismWeights, sumIndexedWeights,
      scaleWeights, scaleOneWeight, BudgetAccountantScope.is_aggregation_scope]

/-! ### Claim C3: finalizing inside an open scope -/

/-- `_finalize` succeeds exactly when its two checks pass. -/
lemma finalize_ok_of (st : BudgetAccountant α)
    (hc : checkNumberAggregationScopes st = .ok ()) (hf : st._finalized = false) :
    st.finalize = ({ st with _finalized := true }, .ok ()) := by
  unfold BudgetAccountant.finalize
  rw [hc]
  simp [hf]

/-- Claim C3 (amended): with the scope stack non-empty, `compute_budgets()`
(Naive or PLD) fails whenever at least one mechanism is registered; but with
zero registered mechanisms it returns successfully (after a non-fatal
warning), because the empty-registry early return precedes the open-scope
check. -/
theorem compute_budgets_open_scope (st : BudgetAccountant α)
    (hs : st._scopes_stack ≠ []) :
    (st.mechanisms ≠ [] →
      (NaiveBudgetAccountant.compute_budgets st).2 ≠ .ok () ∧
      ∀ (s2 : α) (f : α → α) (fuel1 fuel2 : ℕ),
        (PLDBudgetAccountant.compute_budgets s2 f fuel1 fuel2 st).2 ≠ .ok ()) ∧
    (st.mechanisms = [] → checkNumberAggregationScopes st = .ok () →
      st._finalized = false →
      (NaiveBudgetAccountant.compute_budgets st).2 = .ok () ∧
      ∀ (s2 : α) (f : α → α) (fuel1 fuel2 : ℕ),
        (PLDBudgetAccountant.compute_budgets s2 f fuel1 fuel2 st).2 = .ok ()) := by
  have hsb : st._scopes_stack.isEmpty = false := by
    rcases hh : st._scopes_stack with _ | _
    · exact absurd hh hs
    · simp
  constructor
  · intro hm
    have hmb : st.mechanisms.isEmpty = false := by
      rcases hh : st.mechanisms with _ | _
      · exact absurd hh hm
      · simp
    constructor
    · unfold NaiveBudgetAccountant.compute_budgets
      rcases finalize_spec st with ⟨hc, hf, heq⟩ | ⟨e, heq⟩ <;> rw [heq] <;>
        simp [hmb, hsb]
    · intro s2 f fuel1 fuel2
      unfold PLDBudgetAccountant.compute_budgets
      rcases finalize_spec st with ⟨hc, hf, heq⟩ | ⟨e, heq⟩ <;> rw [heq] <;>
        simp [hmb, hsb]
  · intro hm hc hf
    have heq := finalize_ok_of st hc hf
    constructor
    · unfold NaiveBudgetAccountant.compute_budgets
      rw [heq]
      simp [hm]
    · intro s2 f fuel1 fuel2
      unfold PLDBudgetAccountant.compute_budgets
      rw [heq]
      simp [hm]

/-- Claim C3, counterexample: an accountant with one open scope and zero
registered mechanisms — both `compute_budgets()` variants return
successfully even though the scope stack is non-empty. -/
theorem compute_budgets_open_scope_counterexample :
    exOpenScopeNoMech._scopes_stack ≠ [] ∧
    exOpenScopeNoMech.mechanisms = [] ∧
    (NaiveBudgetAccountant.compute_budgets exOpenScopeNoMech).2 = .ok () ∧
    (PLDBudgetAccountant.compute_budgets (1 : ℚ) (fun _ => 0) 0 0 exOpenScopeNoMech).2 =
      .ok () := by
  refine ⟨by simp [exOpenScopeNoMech], rfl, ?_, ?_⟩ <;>
    norm_num [NaiveBudgetAccountant.compute_budgets, PLDBudgetAccountant.compute_budgets,
      exOpenScopeNoMech, BudgetAccountant.finalize, checkNumberAggregationScopes,
      nAggTruthy, aggWeightsTruthy]

/-- Claim C3, witness: with one open scope and one registered mechanism, both
`compute_budgets()` variants fail. -/
theorem compute_budgets_open_scope_witness :
    (NaiveBudgetAccountant.compute_budgets exOpenScopeOneMech).2 ≠ .ok () ∧
    ∀ (s2 : ℚ) (f : ℚ → ℚ) (fuel1 fuel2 : ℕ),
      (PLDBudgetAccountant.compute_budgets s2 f fuel1 fuel2 exOpenScopeOneMech).2 ≠
        .ok () :=
  (compute_budgets_open_scope exOpenScopeOneMech
    (by simp [exOpenScopeOneMech])).1 (by simp [exOpenScopeOneMech])

/-! ### Claim C4: nesting of aggregation scopes -/

/-- Claim C4 (amended): with the `inside_aggregation_scope` flag set, calling
`scope(w, aggregation_scope=True)` fails with the nesting error when
`n_aggregations` or `aggregation_weights` is set (truthy); but when neither
constraint is configured, the aggregation-scope validation (including the
nesting check) is skipped entirely and the call succeeds, returning an
ordinary non-aggregation scope. -/
theorem aggregation_scope_nesting (st : BudgetAccountant α) (w : α)
    (hin : st._inside_aggregation_scope = true) :
    ((nAggTruthy st || aggWeightsTruthy st) = true →
      st.scope w true = (st, .error "Aggregation scopes can not be nested.")) ∧
    ((nAggTruthy st || aggWeightsTruthy st) = false →
      st.scope w true = (st, .ok (mkScope st w none))) := by
  unfold BudgetAccountant.scope
  constructor <;> intro hc <;> simp [hc, hin]

/-- Claim C4, counterexample: on an accountant constructed without
`n_aggregations` and without `aggregation_weights`, a scope created with
`aggregation_scope=True` is open (entered) and a second
`scope(1, aggregation_scope=True)` call still succeeds — nesting is not
detected in this configuration. -/
theorem aggregation_scope_nesting_counterexample :
    (BudgetAccountant.scope (initState (1 : ℚ) 0 none none) 1 true).2 =
      .ok { weight := 1 } ∧
    ((BudgetAccountant.enter_scope
        (BudgetAccountant.scope (initState (1 : ℚ) 0 none none) 1 true).1
        { weight := 1 }).scope 1 true).2 = .ok { weight := 1 } := by
  constructor <;>
    norm_num [BudgetAccountant.scope, initState, nAggTruthy, aggWeightsTruthy, mkScope,
      BudgetAccountant.enter_scope, BudgetAccountantScope.is_aggregation_scope]

/-- Claim C4, witness: with the flag set and `n_aggregations = 2` configured,
the nested aggregation-scope call fails; with the flag set but no constraint
configured, it succeeds. -/
theorem aggregation_scope_nesting_witness :
    (exInsideAggConstrained.scope (1 : ℚ) true =
      (exInsideAggConstrained, .error "Aggregation scopes can not be nested.")) ∧
    (exInsideAggUnconstrained.scope (1 : ℚ) true =
      (exInsideAggUnconstrained, .ok (mkScope exInsideAggUnconstrained 1 none))) :=
  ⟨(aggregation_scope_nesting exInsideAggConstrained 1 (by decide)).1 (by decide),
   (aggregation_scope_nesting exInsideAggUnconstrained 1 (by decide)).2 (by decide)⟩

/-! ### Claim C8: the finalize-once lifecycle -/

/-- A Naive `compute_budgets` either leaves a finalized state or (on a
pre-finalize failure) leaves the state untouched. -/
lemma naive_compute_state (st : BudgetAccountant α) :
    (NaiveBudgetAccountant.compute_budgets st).1._finalized = true ∨
    (NaiveBudgetAccountant.compute_budgets st).1 = st := by
  unfold NaiveBudgetAccountant.compute_budgets
  rcases finalize_spec st with ⟨hc, hf, heq⟩ | ⟨e, heq⟩ <;> rw [heq] <;> dsimp only
  · left
    split
    · rfl
    · split <;> rfl
  · right
    rfl

/-- A PLD `compute_budgets` either leaves a finalized state or (on a
pre-finalize failure) leaves the state untouched. -/
lemma pld_compute_state (s2 : α) (f : α → α) (fuel1 fuel2 : ℕ) (st : BudgetAccountant α) :
    (PLDBudgetAccountant.compute_budgets s2 f fuel1 fuel2 st).1._finalized = true ∨
    (PLDBudgetAccountant.compute_budgets s2 f fuel1 fuel2 st).1 = st := by
  unfold PLDBudgetAccountant.compute_budgets
  rcases finalize_spec st with ⟨hc, hf, heq⟩ | ⟨e, heq⟩ <;> rw [heq] <;> dsimp only
  · left
    split
    · rfl
    · split
      · rfl
      · split
        · rfl
        · split <;> rfl
  · right
    rfl

/-- A successful Naive `compute_budgets` leaves `finalized = true`. -/
lemma naive_compute_finalized_of_ok (st : BudgetAccountant α)
    (h : (NaiveBudgetAccountant.compute_budgets st).2 = .ok ()) :
    (NaiveBudgetAccountant.compute_budgets st).1._finalized = true := by
  unfold NaiveBudgetAccountant.compute_budgets at h ⊢
  rcases finalize_spec st with ⟨hc, hf, hfeq⟩ | ⟨e, hfeq⟩
  · rw [hfeq]
    dsimp only
    split
    · rfl
    · split <;> rfl
  · rw [hfeq] at h
    simp at h

/-- A successful PLD `compute_budgets` leaves `finalized = true`. -/
lemma pld_compute_finalized_of_ok (s2 : α) (f : α → α) (fuel1 fuel2 : ℕ)
    (st : BudgetAccountant α)
    (h : (PLDBudgetAccountant.compute_budgets s2 f fuel1 fuel2 st).2 = .ok ()) :
    (PLDBudgetAccountant.compute_budgets s2 f fuel1 fuel2 st).1._finalized = true := by
  unfold PLDBudgetAccountant.compute_budgets at h ⊢
  rcases finalize_spec st with ⟨hc, hf, hfeq⟩ | ⟨e, hfeq⟩
  · rw [hfeq]
    dsimp only
    split
    · rfl
    · split
      · rfl
      · split
        · rfl
        · split <;> rfl
  · rw [hfeq] at h
    simp at h

/-- On an already-finalized accountant, `_finalize` always raises. -/
lemma finalize_error_of_finalized (st : BudgetAccountant α) (hf : st._finalized = true) :
    ∃ e, st.finalize = (st, .error e) := by
  rcases finalize_spec st with ⟨_, hf0, _⟩ | h
  · rw [hf] at hf0
    cases hf0
  · exact h

/-- Claim C8: `compute_budgets()` success (Naive or PLD) leaves the
accountant irreversibly finalized, and on a finalized accountant every
`request_budget` call fails with the "called after compute_budgets" error and
every further `compute_budgets()` call fails. -/
theorem finalize_once (st : BudgetAccountant α) :
    ((NaiveBudgetAccountant.compute_budgets st).2 = .ok () →
      (NaiveBudgetAccountant.compute_budgets st).1._finalized = true) ∧
    (∀ (s2 : α) (f : α → α) (fuel1 fuel2 : ℕ),
      (PLDBudgetAccountant.compute_budgets s2 f fuel1 fuel2 st).2 = .ok () →
      (PLDBudgetAccountant.compute_budgets s2 f fuel1 fuel2 st).1._finalized = true) ∧
    (st._finalized = true →
      (∀ (mt : MechanismType) (sens w : α) (c : ℕ) (nsd : Option α),
        (NaiveBudgetAccountant.request_budget st mt sens w c nsd).2 =
          .error "request_budget() is called after compute_budgets(). Please ensure that compute_budgets() is called after DP aggregations.") ∧
      (∀ (mt : MechanismType) (sens w : α) (c : ℕ) (nsd : Option α),
        (PLDBudgetAccountant.request_budget st mt sens w c nsd).2 =
          .error "request_budget() is called after compute_budgets(). Please ensure that compute_budgets() is called after DP aggregations.") ∧
      (NaiveBudgetAccountant.compute_budgets st).2 ≠ .ok () ∧
      (∀ (s2 : α) (f : α → α) (fuel1 fuel2 : ℕ),
        (PLDBudgetAccountant.compute_budgets s2 f fuel1 fuel2 st).2 ≠ .ok ())) := by
  refine ⟨naive_compute_finalized_of_ok st,
    fun s2 f fuel1 fuel2 => pld_compute_finalized_of_ok s2 f fuel1 fuel2 st, ?_⟩
  intro hf
  obtain ⟨e, hfeq⟩ := finalize_error_of_finalized st hf
  refine ⟨?_, ?_, ?_, ?_⟩
  · intro mt sens w c nsd
    unfold NaiveBudgetAccountant.request_budget
    simp [hf]
  · intro mt sens w c nsd
    unfold PLDBudgetAccountant.request_budget
    simp [hf]
  · unfold NaiveBudgetAccountant.compute_budgets
    rw [hfeq]
    simp
  · intro s2 f fuel1 fuel2
    unfold PLDBudgetAccountant.compute_budgets
    rw [hfeq]
    simp

/-- Claim C8, witness: a successful Naive and a successful PLD
`compute_budgets()` both leave `finalized = true`, and on a finalized
accountant both `request_budget` variants and both `compute_budgets`
variants fail. -/
theorem finalize_once_witness :
    ((NaiveBudgetAccountant.compute_budgets exOneLaplace).1._finalized = true) ∧
    ((PLDBudgetAccountant.compute_budgets (1 : ℚ) (fun _ => 0) 0 0
        exOneLaplace).1._finalized = true) ∧
    ((NaiveBudgetAccountant.request_budget exFinalized .LAPLACE 1 1 1 none).2 =
      .error "request_budget() is called after compute_budgets(). Please ensure that compute_budgets() is called after DP aggregations.") ∧
    ((PLDBudgetAccountant.request_budget exFinalized .LAPLACE 1 1 1 none).2 =
      .error "request_budget() is called after compute_budgets(). Please ensure that compute_budgets() is called after DP aggregations.") ∧
    ((NaiveBudgetAccountant.compute_budgets exFinalized).2 ≠ .ok ()) ∧
    ((PLDBudgetAccountant.compute_budgets (1 : ℚ) (fun _ => 0) 0 0 exFinalized).2 ≠
      .ok ()) :=
  ⟨(finalize_once exOneLaplace).1
      (by norm_num [NaiveBudgetAccountant.compute_budgets, exOneLaplace,
        BudgetAccountant.finalize, checkNumberAggregationScopes, nAggTruthy,
        aggWeightsTruthy, naiveAlloc]),
   (finalize_once exOneLaplace).2.1 1 (fun _ => 0) 0 0
      (by norm_num [PLDBudgetAccountant.compute_budgets, exOneLaplace,
        BudgetAccountant.finalize, checkNumberAggregationScopes, nAggTruthy,
        aggWeightsTruthy, pldAssignLoop, pldAssignOne, Except.map,
        MechanismSpec.set_eps_delta]),
   ((finalize_once exFinalized).2.2 rfl).1 .LAPLACE 1 1 1 none,
   ((finalize_once exFinalized).2.2 rfl).2.1 .LAPLACE 1 1 1 none,
   ((finalize_once exFinalized).2.2 rfl).2.2.1,
   ((finalize_once exFinalized).2.2 rfl).2.2.2 1 (fun _ => 0) 0 0⟩

/-! ### Claim C9: lazy, write-once mechanism fields -/

/-- Setting a list entry to the value it already holds is a no-op. -/
lemma list_set_getElem_self {β : Type} (l : List β) (i : ℕ) (a : β)
    (h : l[i]? = some a) : l.set i a = l := by
  apply List.ext_getElem?
  intro j
  by_cases hij : i = j
  · subst hij
    rw [List.getElem?_set_self', h]
    cases hh : l[i]? <;> simp_all
  · rw [List.getElem?_set_ne hij]

/-- Rescaling one weight does not touch the lazy spec fields. -/
lemma scaleOneWeight_map_specFields (mechs : List (MechanismSpecInternal α)) (i : ℕ)
    (factor : α) :
    (scaleOneWeight mechs i factor).map specFields = mechs.map specFields := by
  unfold scaleOneWeight
  cases h : mechs[i]? with
  | none => rfl
  | some m =>
      rw [List.map_set]
      apply list_set_getElem_self
      rw [List.getElem?_map, h]
      rfl

/-- Rescaling weights does not touch the lazy spec fields. -/
lemma scaleWeights_map_specFields (mechs : List (MechanismSpecInternal α)) (idxs : List ℕ)
    (factor : α) :
    (scaleWeights mechs idxs factor).map specFields = mechs.map specFields := by
  induction idxs generalizing mechs with
  | nil => rfl
  | cons i rest ih => rw [scaleWeights_cons, ih, scaleOneWeight_map_specFields]

/-- `scope()` either returns the state unchanged or only advances the
aggregation counter. -/
lemma scope_state (st : BudgetAccountant α) (w : α) (b : Bool) :
    (st.scope w b).1 = st ∨
    (st.scope w b).1 =
      { st with _next_aggregation_index := st._next_aggregation_index + 1 } := by
  unfold BudgetAccountant.scope
  dsimp only
  repeat' split
  all_goals first | exact Or.inl rfl | exact Or.inr rfl

/-- Opening (creating and entering) a scope never touches the mechanism
registry or the finalized flag. -/
lemma stepOp_openScope_fields (w : α) (agg : Bool) (st : BudgetAccountant α) :
    (stepOp (.openScope w agg) st).mechanisms = st.mechanisms ∧
    (stepOp (.openScope w agg) st)._finalized = st._finalized := by
  have hs := scope_state st w agg
  unfold stepOp
  dsimp only
  rcases hsc : st.scope w agg with ⟨st1, r⟩
  rw [hsc] at hs
  dsimp only at hs
  cases r <;> dsimp only <;>
    rcases hs with hs | hs <;> rw [hs] <;> exact ⟨rfl, rfl⟩

/-- Closing a scope rescales weights only: the lazy spec fields and the
finalized flag are untouched. -/
lemma exitScope_fields (st : BudgetAccountant α) :
    (exitScope st).1.mechanisms.map specFields = st.mechanisms.map specFields ∧
    (exitScope st).1._finalized = st._finalized := by
  unfold exitScope
  cases hl : st._scopes_stack.getLast? with
  | none => exact ⟨rfl, rfl⟩
  | some sc =>
      dsimp only
      unfold normaliseMechanismWeights
      dsimp only
      split
      · exact ⟨rfl, rfl⟩
      · split
        · exact ⟨rfl, rfl⟩
        · exact ⟨scaleWeights_map_specFields _ _ _, rfl⟩

/-- A Naive `request_budget` leaves the registry unchanged or appends one
fresh record with unset fields; the finalized flag is untouched. -/
lemma naive_request_fields (st : BudgetAccountant α) (mt : MechanismType)
    (sens w : α) (c : ℕ) (nsd : Option α) :
    ((NaiveBudgetAccountant.request_budget st mt sens w c nsd).1.mechanisms =
        st.mechanisms ∨
      ∃ fresh, (NaiveBudgetAccountant.request_budget st mt sens w c nsd).1.mechanisms =
          st.mechanisms ++ [fresh] ∧ specFields fresh = (none, none, none)) ∧
    (NaiveBudgetAccountant.request_budget st mt sens w c nsd).1._finalized =
      st._finalized := by
  unfold NaiveBudgetAccountant.request_budget
  repeat' split
  · exact ⟨Or.inl rfl, rfl⟩
  · exact ⟨Or.inl rfl, rfl⟩
  · exact ⟨Or.inl rfl, rfl⟩
  · exact ⟨Or.inr ⟨_, rfl, rfl⟩, rfl⟩

/-- A PLD `request_budget` leaves the registry unchanged or appends one fresh
record with unset fields; the finalized flag is untouched. -/
lemma pld_request_fields (st : BudgetAccountant α) (mt : MechanismType)
    (sens w : α) (c : ℕ) (nsd : Option α) :
    ((PLDBudgetAccountant.request_budget st mt sens w c nsd).1.mechanisms =
        st.mechanisms ∨
      ∃ fresh, (PLDBudgetAccountant.request_budget st mt sens w c nsd).1.mechanisms =
          st.mechanisms ++ [fresh] ∧ specFields fresh = (none, none, none)) ∧
    (PLDBudgetAccountant.request_budget st mt sens w c nsd).1._finalized =
      st._finalized := by
  unfold PLDBudgetAccountant.request_budget
  repeat' split
  · exact ⟨Or.inl rfl, rfl⟩
  · exact ⟨Or.inl rfl, rfl⟩
  · exact ⟨Or.inl rfl, rfl⟩
  · exact ⟨Or.inr ⟨_, rfl, rfl⟩, rfl⟩

/-- Every operation preserves "all lazy fields are unset while the accountant
is not finalized". -/
lemma stepOp_preserves_unset (op : AccountantOp α) (st : BudgetAccountant α)
    (h : st._finalized = false → ∀ m ∈ st.mechanisms, specFields m = (none, none, none)) :
    (stepOp op st)._finalized = false →
      ∀ m ∈ (stepOp op st).mechanisms, specFields m = (none, none, none) := by
  have hmap : ∀ (l l' : List (MechanismSpecInternal α)),
      l'.map specFields = l.map specFields →
      (∀ m ∈ l, specFields m = (none, none, none)) →
      ∀ m ∈ l', specFields m = (none, none, none) := by
    intro l l' hmm hall m hm
    have : specFields m ∈ l.map specFields := by
      rw [← hmm]
      exact List.mem_map_of_mem _ hm
    obtain ⟨m0, hm0, he⟩ := List.mem_map.mp this
    rw [← he]
    exact hall m0 hm0
  cases op with
  | requestNaive mt sens w c nsd =>
      intro hfin m hm
      obtain ⟨hmech, hfeq⟩ := naive_request_fields st mt sens w c nsd
      have hst : st._finalized = false := by rw [← hfeq]; exact hfin
      rcases hmech with he | ⟨fresh, he, hfr⟩
      · exact h hst m (by rwa [stepOp, he] at hm)
      · rw [stepOp, he] at hm
        rcases List.mem_append.mp hm with hm0 | hm1
        · exact h hst m hm0
        · rw [List.mem_singleton.mp hm1]
          exact hfr
  | requestPLD mt sens w c nsd =>
      intro hfin m hm
      obtain ⟨hmech, hfeq⟩ := pld_request_fields st mt sens w c nsd
      have hst : st._finalized = false := by rw [← hfeq]; exact hfin
      rcases hmech with he | ⟨fresh, he, hfr⟩
      · exact h hst m (by rwa [stepOp, he] at hm)
      · rw [stepOp, he] at hm
        rcases List.mem_append.mp hm with hm0 | hm1
        · exact h hst m hm0
        · rw [List.mem_singleton.mp hm1]
          exact hfr
  | openScope w agg =>
      intro hfin m hm
      obtain ⟨hmech, hfeq⟩ := stepOp_openScope_fields w agg st
      exact h (by rw [← hfeq]; exact hfin) m (by rwa [hmech] at hm)
  | closeScope =>
      intro hfin m hm
      obtain ⟨hmech, hfeq⟩ := exitScope_fields st
      exact hmap _ _ hmech (h (by rw [stepOp] at hfin; rw [← hfeq]; exact hfin))
        m (by rwa [stepOp] at hm)
  | computeNaive =>
      intro hfin m hm
      rcases naive_compute_state st with hfin' | heq
      · rw [stepOp] at hfin
        rw [hfin] at hfin'
        cases hfin'
      · rw [stepOp, heq] at hfin hm
        exact h hfin m hm
  | computePLD s2 f fuel1 fuel2 =>
      intro hfin m hm
      rcases pld_compute_state s2 f fuel1 fuel2 st with hfin' | heq
      · rw [stepOp] at hfin
        rw [hfin] at hfin'
        cases hfin'
      · rw [stepOp, heq] at hfin hm
        exact h hfin m hm

/-- Every state reachable from a freshly constructed accountant satisfies the
pre-finalize invariant: all lazy fields unset. -/
lemma runOps_unset (ε δ : α) (na : Option ℕ) (aw : Option (List α))
    (ops : List (AccountantOp α)) :
    (runOps ops (initState ε δ na aw))._finalized = false →
      ∀ m ∈ (runOps ops (initState ε δ na aw)).mechanisms,
        specFields m = (none, none, none) := by
  have hgen : ∀ (ops : List (AccountantOp α)) (st : BudgetAccountant α),
      (st._finalized = false → ∀ m ∈ st.mechanisms, specFields m = (none, none, none)) →
      ((runOps ops st)._finalized = false →
        ∀ m ∈ (runOps ops st).mechanisms, specFields m = (none, none, none)) := by
    intro ops
    induction ops with
    | nil => exact fun st h => h
    | cons op rest ih => exact fun st h => ih (stepOp op st) (stepOp_preserves_unset op st h)
  apply hgen
  intro _ m hm
  cases hm

/-- After finalization, no operation ever changes a lazy spec field again. -/
lemma stepOp_frozen_of_finalized (op : AccountantOp α) (st : BudgetAccountant α)
    (hf : st._finalized = true) :
    (stepOp op st).mechanisms.map specFields = st.mechanisms.map specFields := by
  cases op with
  | requestNaive mt sens w c nsd =>
      rw [stepOp]
      unfold NaiveBudgetAccountant.request_budget
      simp [hf]
  | requestPLD mt sens w c nsd =>
      rw [stepOp]
      unfold PLDBudgetAccountant.request_budget
      simp [hf]
  | openScope w agg => rw [(stepOp_openScope_fields w agg st).1]
  | closeScope => exact (exitScope_fields st).1
  | computeNaive =>
      obtain ⟨e, hfeq⟩ := finalize_error_of_finalized st hf
      rw [stepOp]
      unfold NaiveBudgetAccountant.compute_budgets
      rw [hfeq]
  | computePLD s2 f fuel1 fuel2 =>
      obtain ⟨e, hfeq⟩ := finalize_error_of_finalized st hf
      rw [stepOp]
      unfold PLDBudgetAccountant.compute_budgets
      rw [hfeq]

/-- Claim C9: a `MechanismSpec` returned by `request_budget` starts with
`noise_standard_deviation`, `eps` and `delta` unset and reading any of them
raises the "not calculated yet" `AssertionError`; in every state reachable
before finalization all three fields of every registered mechanism are still
unset (so only the one successful `compute_budgets()` run ever writes them),
and from the moment the accountant is finalized no operation changes any of
the three fields again. -/
theorem mechanism_spec_write_once (ε δ : α) (na : Option ℕ) (aw : Option (List α))
    (ops : List (AccountantOp α)) :
    (∀ (st st' : BudgetAccountant α) (mt : MechanismType) (sens w : α) (c : ℕ)
        (nsd : Option α) (spec : MechanismSpec α),
      NaiveBudgetAccountant.request_budget st mt sens w c nsd = (st', .ok spec) →
      spec._noise_standard_deviation = none ∧ spec._eps = none ∧ spec._delta = none ∧
      spec.noise_standard_deviation =
        .error "Noise standard deviation is not calculated yet." ∧
      spec.eps = .error "Privacy budget is not calculated yet." ∧
      spec.delta = .error "Privacy budget is not calculated yet.") ∧
    (∀ (st st' : BudgetAccountant α) (mt : MechanismType) (sens w : α) (c : ℕ)
        (nsd : Option α) (spec : MechanismSpec α),
      PLDBudgetAccountant.request_budget st mt sens w c nsd = (st', .ok spec) →
      spec._noise_standard_deviation = none ∧ spec._eps = none ∧ spec._delta = none ∧
      spec.noise_standard_deviation =
        .error "Noise standard deviation is not calculated yet." ∧
      spec.eps = .error "Privacy budget is not calculated yet." ∧
      spec.delta = .error "Privacy budget is not calculated yet.") ∧
    ((runOps ops (initState ε δ na aw))._finalized = false →
      ∀ m ∈ (runOps ops (initState ε δ na aw)).mechanisms,
        m.mechanism_spec._noise_standard_deviation = none ∧
        m.mechanism_spec._eps = none ∧ m.mechanism_spec._delta = none ∧
        m.mechanism_spec.noise_standard_deviation =
          .error "Noise standard deviation is not calculated yet." ∧
        m.mechanism_spec.eps = .error "Privacy budget is not calculated yet." ∧
        m.mechanism_spec.delta = .error "Privacy budget is not calculated yet.") ∧
    (∀ (op : AccountantOp α) (st : BudgetAccountant α), st._finalized = true →
      (stepOp op st).mechanisms.map specFields = st.mechanisms.map specFields) := by
  have hgetters : ∀ spec : MechanismSpec α,
      spec._noise_standard_deviation = none → spec._eps = none → spec._delta = none →
      spec.noise_standard_deviation =
          .error "Noise standard deviation is not calculated yet." ∧
        spec.eps = .error "Privacy budget is not calculated yet." ∧
        spec.delta = .error "Privacy budget is not calculated yet." := by
    intro spec h1 h2 h3
    unfold MechanismSpec.noise_standard_deviation MechanismSpec.eps MechanismSpec.delta
    rw [h1, h2, h3]
    exact ⟨rfl, rfl, rfl⟩
  refine ⟨?_, ?_, ?_, stepOp_frozen_of_finalized⟩
  · intro st st' mt sens w c nsd spec h
    unfold NaiveBudgetAccountant.request_budget at h
    split at h
    · simp at h
    · split at h
      · simp at h
      · split at h
        · simp at h
        · simp only [Prod.mk.injEq] at h
          obtain ⟨-, h2⟩ := h
          injection h2 with h3
          subst h3
          exact ⟨rfl, rfl, rfl, hgetters _ rfl rfl rfl⟩
  · intro st st' mt sens w c nsd spec h
    unfold PLDBudgetAccountant.request_budget at h
    split at h
    · simp at h
    · split at h
      · simp at h
      · split at h
        · simp at h
        · simp only [Prod.mk.injEq] at h
          obtain ⟨-, h2⟩ := h
          injection h2 with h3
          subst h3
          exact ⟨rfl, rfl, rfl, hgetters _ rfl rfl rfl⟩
  · intro hfin m hm
    have hun := runOps_unset ε δ na aw ops hfin m hm
    have h1 : m.mechanism_spec._noise_standard_deviation = none :=
      congrArg (fun t => t.1) hun
    have h2 : m.mechanism_spec._eps = none := congrArg (fun t => t.2.1) hun
    have h3 : m.mechanism_spec._delta = none := congrArg (fun t => t.2.2) hun
    exact ⟨h1, h2, h3, hgetters _ h1 h2 h3⟩

/-- Claim C9, witness: on a freshly constructed accountant the spec returned
by `request_budget` has all three fields unset and its getters raise; the
state reached by that request is not finalized and its registered mechanism
still has unset fields with raising getters; and on a finalized accountant a
further request leaves the field triples untouched. -/
theorem mechanism_spec_write_once_witness :
    (({ mechanism_type := .LAPLACE, _count := 1 } :
        MechanismSpec ℚ).eps = .error "Privacy budget is not calculated yet.") ∧
    ((runOps [AccountantOp.requestNaive .LAPLACE 1 1 1 none]
        (initState (1 : ℚ) 0 none none))._finalized = false →
      ∀ m ∈ (runOps [AccountantOp.requestNaive .LAPLACE 1 1 1 none]
          (initState (1 : ℚ) 0 none none)).mechanisms,
        m.mechanism_spec._noise_standard_deviation = none ∧
        m.mechanism_spec._eps = none ∧ m.mechanism_spec._delta = none ∧
        m.mechanism_spec.noise_standard_deviation =
          .error "Noise standard deviation is not calculated yet." ∧
        m.mechanism_spec.eps = .error "Privacy budget is not calculated yet." ∧
        m.mechanism_spec.delta = .error "Privacy budget is not calculated yet.") ∧
    ((stepOp (.requestNaive .GAUSSIAN 1 1 1 none) exFinalized).mechanisms.map specFields =
      exFinalized.mechanisms.map specFields) := by
  have hthm := mechanism_spec_write_once (1 : ℚ) 0 none none
    [AccountantOp.requestNaive .LAPLACE 1 1 1 none]
  refine ⟨?_, hthm.2.2.1, hthm.2.2.2 (.requestNaive .GAUSSIAN 1 1 1 none) exFinalized rfl⟩
  exact (hthm.1 (initState (1 : ℚ) 0 none none) _ .LAPLACE 1 1 1 none
    { mechanism_type := .LAPLACE, _count := 1 } rfl).2.2.2.2.1

/-! ### PLD compute_budgets: success shape -/

/-- A successful assignment loop applies `pldAssignOne` to every mechanism. -/
lemma pldAssignLoop_ok (s2 total_epsilon total_delta minimum_noise_std : α)
    (mechs l : List (MechanismSpecInternal α))
    (h : pldAssignLoop s2 total_epsilon total_delta minimum_noise_std mechs = .ok l) :
    l = mechs.map (pldAssignOne s2 total_epsilon total_delta minimum_noise_std) := by
  induction mechs generalizing l with
  | nil =>
      simp only [pldAssignLoop] at h
      injection h with h1
      rw [← h1]
      rfl
  | cons m rest ih =>
      simp only [pldAssignLoop] at h
      split at h
      · simp at h
      · split at h
        · simp at h
        · cases hr : pldAssignLoop s2 total_epsilon total_delta minimum_noise_std rest with
          | error e =>
              rw [hr] at h
              simp [Except.map] at h
          | ok rest' =>
              rw [hr] at h
              simp only [Except.map] at h
              injection h with h1
              rw [← h1, ih rest' hr]
              rfl

/-- The success shape of `PLDBudgetAccountant.compute_budgets` with a
non-empty registry: the preconditions that must have held, the stored
`minimum_noise_std`, and the per-mechanism assignment. -/
lemma pld_compute_ok (s2 : α) (f : α → α) (fuel1 fuel2 : ℕ) (st : BudgetAccountant α)
    (h : (PLDBudgetAccountant.compute_budgets s2 f fuel1 fuel2 st).2 = .ok ())
    (hm : st.mechanisms ≠ []) :
    ∃ mns,
      (PLDBudgetAccountant.compute_budgets s2 f fuel1 fuel2 st).1.minimum_noise_std =
        some mns ∧
      (PLDBudgetAccountant.compute_budgets s2 f fuel1 fuel2 st).1.mechanisms =
        st.mechanisms.map (pldAssignOne s2 st.total_epsilon st.total_delta mns) ∧
      (st.total_delta = 0 →
        st.total_epsilon ≠ 0 ∧
        mns = (st.mechanisms.map (·.weight)).sum / st.total_epsilon * s2) ∧
      (st.total_delta ≠ 0 →
        findMinimumNoiseStd f st.total_epsilon fuel1 fuel2 = some mns) := by
  have hme : st.mechanisms.isEmpty = false := by
    rcases hh : st.mechanisms with _ | _
    · exact absurd hh hm
    · simp
  rcases finalize_spec st with ⟨hc, hf, hfeq⟩ | ⟨e, hfeq⟩
  · by_cases hsb : st._scopes_stack.isEmpty
    · by_cases hd : st.total_delta = 0
      · by_cases he : st.total_epsilon = 0
        · exfalso
          unfold PLDBudgetAccountant.compute_budgets at h
          rw [hfeq] at h
          dsimp only at h
          simp [hme, hsb, hd, he] at h
        · cases hl : pldAssignLoop s2 st.total_epsilon 0
              ((st.mechanisms.map (·.weight)).sum / st.total_epsilon * s2)
              st.mechanisms with
          | error e2 =>
              exfalso
              unfold PLDBudgetAccountant.compute_budgets at h
              rw [hfeq] at h
              dsimp only at h
              simp [hme, hsb, hd, he, hl] at h
          | ok l =>
              have hR : PLDBudgetAccountant.compute_budgets s2 f fuel1 fuel2 st =
                  ({ st with
                      _finalized := true
                      minimum_noise_std :=
                        some ((st.mechanisms.map (·.weight)).sum / st.total_epsilon * s2)
                      mechanisms := l }, .ok ()) := by
                unfold PLDBudgetAccountant.compute_budgets
                rw [hfeq]
                dsimp only
                simp [hme, hsb, hd, he, hl]
              rw [hR]
              refine ⟨(st.mechanisms.map (·.weight)).sum / st.total_epsilon * s2,
                rfl, ?_, fun _ => ⟨he, rfl⟩, fun hd2 => absurd hd hd2⟩
              rw [hd]
              simpa using pldAssignLoop_ok _ _ _ _ _ _ hl
      · cases hfind : findMinimumNoiseStd f st.total_epsilon fuel1 fuel2 with
        | none =>
            exfalso
            unfold PLDBudgetAccountant.compute_budgets at h
            rw [hfeq] at h
            dsimp only at h
            simp [hme, hsb, hd, hfind] at h
        | some mns =>
            cases hl : pldAssignLoop s2 st.total_epsilon st.total_delta mns
                st.mechanisms with
            | error e2 =>
                exfalso
                unfold PLDBudgetAccountant.compute_budgets at h
                rw [hfeq] at h
                dsimp only at h
                simp [hme, hsb, hd, hfind, hl] at h
            | ok l =>
                have hR : PLDBudgetAccountant.compute_budgets s2 f fuel1 fuel2 st =
                    ({ st with
                        _finalized := true
                        minimum_noise_std := some mns
                        mechanisms := l }, .ok ()) := by
                  unfold PLDBudgetAccountant.compute_budgets
                  rw [hfeq]
                  dsimp only
                  simp [hme, hsb, hd, hfind, hl]
                rw [hR]
                refine ⟨mns, rfl, ?_, fun hd2 => absurd hd2 hd, fun _ => rfl⟩
                simpa using pldAssignLoop_ok _ _ _ _ _ _ hl
    · exfalso
      unfold PLDBudgetAccountant.compute_budgets at h
      rw [hfeq] at h
      dsimp only at h
      simp [hme, hsb] at h
  · exfalso
    unfold PLDBudgetAccountant.compute_budgets at h
    rw [hfeq] at h
    simp at h

/-- With `total_delta = 0`, `PLDBudgetAccountant.compute_budgets` never
consults the PLD collaborator or the search fuel. -/
lemma pld_compute_delta_zero_indep (s2 : α) (f g : α → α) (fuel1 fuel2 fuel3 fuel4 : ℕ)
    (st : BudgetAccountant α) (hd : st.total_delta = 0) :
    PLDBudgetAccountant.compute_budgets s2 f fuel1 fuel2 st =
      PLDBudgetAccountant.compute_budgets s2 g fuel3 fuel4 st := by
  unfold PLDBudgetAccountant.compute_budgets
  rcases finalize_spec st with ⟨hc, hf, hfeq⟩ | ⟨e, hfeq⟩
  · rw [hfeq]
    dsimp only
    simp only [hd, eq_self_iff_true, if_true]
  · rw [hfeq]

/-! ### Claim C5: the delta-zero closed form -/

/-- Claim C5: when `total_delta = 0`, a successful PLD `compute_budgets()`
with at least one mechanism performs no search — the result is independent of
the PLD collaborator and of the loop fuel — and stores
`minimum_noise_std = (sum of weights) / total_epsilon * sqrt(2)`. -/
theorem pld_compute_budgets_delta_zero (f : ℝ → ℝ) (fuel1 fuel2 : ℕ)
    (st : BudgetAccountant ℝ) (hd : st.total_delta = 0)
    (h : (PLDBudgetAccountant.compute_budgets (Real.sqrt 2) f fuel1 fuel2 st).2 = .ok ())
    (hm : st.mechanisms ≠ []) :
    (PLDBudgetAccountant.compute_budgets (Real.sqrt 2) f fuel1
        fuel2 st).1.minimum_noise_std =
      some ((st.mechanisms.map (·.weight)).sum / st.total_epsilon * Real.sqrt 2) ∧
    ∀ (g : ℝ → ℝ) (fuel3 fuel4 : ℕ),
      PLDBudgetAccountant.compute_budgets (Real.sqrt 2) g fuel3 fuel4 st =
        PLDBudgetAccountant.compute_budgets (Real.sqrt 2) f fuel1 fuel2 st := by
  obtain ⟨mns, hmns, hmechs, hdz, hdnz⟩ :=
    pld_compute_ok (Real.sqrt 2) f fuel1 fuel2 st h hm
  obtain ⟨he, hval⟩ := hdz hd
  refine ⟨by rw [hmns, hval], fun g fuel3 fuel4 => ?_⟩
  exact pld_compute_delta_zero_indep (Real.sqrt 2) g f fuel3 fuel4 fuel1 fuel2 st hd

/-- Claim C5, witness: one Laplace mechanism with sensitivity 1 and weight 1
under `total_epsilon = 2`, `total_delta = 0` gives
`minimum_noise_std = sqrt(2)/2` exactly. -/
theorem pld_compute_budgets_delta_zero_witness :
    (PLDBudgetAccountant.compute_budgets (Real.sqrt 2) (fun _ => 0) 0 0
        exPLDDeltaZero).1.minimum_noise_std = some (Real.sqrt 2 / 2) := by
  have h : (PLDBudgetAccountant.compute_budgets (Real.sqrt 2) (fun _ => (0 : ℝ)) 0 0
      exPLDDeltaZero).2 = .ok () := by
    norm_num [PLDBudgetAccountant.compute_budgets, exPLDDeltaZero,
      BudgetAccountant.finalize, checkNumberAggregationScopes, nAggTruthy,
      aggWeightsTruthy, pldAssignLoop, pldAssignOne, Except.map,
      MechanismSpec.set_eps_delta]
  have hc5 := (pld_compute_budgets_delta_zero (fun _ => 0) 0 0 exPLDDeltaZero rfl h
    (by simp [exPLDDeltaZero])).1
  rw [hc5]
  norm_num [exPLDDeltaZero]
  ring

/-! ### Claim C6: the per-mechanism PLD assignment -/

/-- Claim C6: on a successful PLD `compute_budgets()` with at least one
mechanism, every mechanism's noise standard deviation is set to
`sensitivity * minimum_noise_std / weight`, and exactly the `GENERIC`
mechanisms additionally get `eps = sqrt(2) / noise_std` and
`delta = eps / total_epsilon * total_delta`; all other mechanisms keep their
`eps`/`delta` fields untouched. -/
theorem pld_compute_budgets_assignment (f : ℝ → ℝ) (fuel1 fuel2 : ℕ)
    (st : BudgetAccountant ℝ)
    (h : (PLDBudgetAccountant.compute_budgets (Real.sqrt 2) f fuel1 fuel2 st).2 = .ok ())
    (hm : st.mechanisms ≠ []) :
    ∃ mns,
      (PLDBudgetAccountant.compute_budgets (Real.sqrt 2) f fuel1
          fuel2 st).1.minimum_noise_std = some mns ∧
      (PLDBudgetAccountant.compute_budgets (Real.sqrt 2) f fuel1
          fuel2 st).1.mechanisms.length = st.mechanisms.length ∧
      ∀ i (hi : i < st.mechanisms.length)
          (hi' : i < (PLDBudgetAccountant.compute_budgets (Real.sqrt 2) f fuel1
            fuel2 st).1.mechanisms.length),
        ((PLDBudgetAccountant.compute_budgets (Real.sqrt 2) f fuel1 fuel2 st).1.mechanisms.get
            ⟨i, hi'⟩).mechanism_spec._noise_standard_deviation =
          some ((st.mechanisms.get ⟨i, hi⟩).sensitivity * mns /
            (st.mechanisms.get ⟨i, hi⟩).weight) ∧
        ((st.mechanisms.get ⟨i, hi⟩).mechanism_spec.mechanism_type =
            MechanismType.GENERIC →
          ((PLDBudgetAccountant.compute_budgets (Real.sqrt 2) f fuel1
              fuel2 st).1.mechanisms.get ⟨i, hi'⟩).mechanism_spec._eps =
            some (Real.sqrt 2 / ((st.mechanisms.get ⟨i, hi⟩).sensitivity * mns /
              (st.mechanisms.get ⟨i, hi⟩).weight)) ∧
          ((PLDBudgetAccountant.compute_budgets (Real.sqrt 2) f fuel1
              fuel2 st).1.mechanisms.get ⟨i, hi'⟩).mechanism_spec._delta =
            some (Real.sqrt 2 / ((st.mechanisms.get ⟨i, hi⟩).sensitivity * mns /
              (st.mechanisms.get ⟨i, hi⟩).weight) / st.total_epsilon *
                st.total_delta)) ∧
        ((st.mechanisms.get ⟨i, hi⟩).mechanism_spec.mechanism_type ≠
            MechanismType.GENERIC →
          ((PLDBudgetAccountant.compute_budgets (Real.sqrt 2) f fuel1
              fuel2 st).1.mechanisms.get ⟨i, hi'⟩).mechanism_spec._eps =
            (st.mechanisms.get ⟨i, hi⟩).mechanism_spec._eps ∧
          ((PLDBudgetAccountant.compute_budgets (Real.sqrt 2) f fuel1
              fuel2 st).1.mechanisms.get ⟨i, hi'⟩).mechanism_spec._delta =
            (st.mechanisms.get ⟨i, hi⟩).mechanism_spec._delta) := by
  obtain ⟨mns, hmns, hmechs, _, _⟩ :=
    pld_compute_ok (Real.sqrt 2) f fuel1 fuel2 st h hm
  refine ⟨mns, hmns, by rw [hmechs]; exact List.length_map _ _, ?_⟩
  intro i hi hi'
  have hget : (PLDBudgetAccountant.compute_budgets (Real.sqrt 2) f fuel1
      fuel2 st).1.mechanisms.get ⟨i, hi'⟩ =
      pldAssignOne (Real.sqrt 2) st.total_epsilon st.total_delta mns
        (st.mechanisms.get ⟨i, hi⟩) := by
    simp [hmechs]
  rw [hget]
  by_cases ht : st.mechanisms[i].mechanism_spec.mechanism_type =
      MechanismType.GENERIC
  · refine ⟨?_, fun _ => ⟨?_, ?_⟩, fun hcon => absurd ht hcon⟩ <;>
      simp [pldAssignOne, MechanismSpec.set_eps_delta, ht]
  · refine ⟨?_, fun hcon => absurd hcon ht, fun _ => ⟨?_, ?_⟩⟩ <;>
      simp [pldAssignOne, MechanismSpec.set_eps_delta, ht]

/-- Claim C6, witness: one generic mechanism with sensitivity 1 and weight 1
under `(2, 0)`: `compute_budgets()` succeeds and the theorem's conclusion
holds at this accountant. -/
theorem pld_compute_budgets_assignment_witness :
    ∃ mns,
      (PLDBudgetAccountant.compute_budgets (Real.sqrt 2) (fun _ => 0) 0
          0 exPLDGeneric).1.minimum_noise_std = some mns ∧
      (PLDBudgetAccountant.compute_budgets (Real.sqrt 2) (fun _ => 0) 0
          0 exPLDGeneric).1.mechanisms.length = exPLDGeneric.mechanisms.length ∧
      ∀ i (hi : i < exPLDGeneric.mechanisms.length)
          (hi' : i < (PLDBudgetAccountant.compute_budgets (Real.sqrt 2) (fun _ => 0) 0
            0 exPLDGeneric).1.mechanisms.length),
        ((PLDBudgetAccountant.compute_budgets (Real.sqrt 2) (fun _ => 0) 0 0
            exPLDGeneric).1.mechanisms.get
            ⟨i, hi'⟩).mechanism_spec._noise_standard_deviation =
          some ((exPLDGeneric.mechanisms.get ⟨i, hi⟩).sensitivity * mns /
            (exPLDGeneric.mechanisms.get ⟨i, hi⟩).weight) ∧
        ((exPLDGeneric.mechanisms.get ⟨i, hi⟩).mechanism_spec.mechanism_type =
            MechanismType.GENERIC →
          ((PLDBudgetAccountant.compute_budgets (Real.sqrt 2) (fun _ => 0) 0
              0 exPLDGeneric).1.mechanisms.get ⟨i, hi'⟩).mechanism_spec._eps =
            some (Real.sqrt 2 /
              ((exPLDGeneric.mechanisms.get ⟨i, hi⟩).sensitivity * mns /
              (exPLDGeneric.mechanisms.get ⟨i, hi⟩).weight)) ∧
          ((PLDBudgetAccountant.compute_budgets (Real.sqrt 2) (fun _ => 0) 0
              0 exPLDGeneric).1.mechanisms.get ⟨i, hi'⟩).mechanism_spec._delta =
            some (Real.sqrt 2 /
              ((exPLDGeneric.mechanisms.get ⟨i, hi⟩).sensitivity * mns /
              (exPLDGeneric.mechanisms.get ⟨i, hi⟩).weight) /
                exPLDGeneric.total_epsilon * exPLDGeneric.total_delta)) ∧
        ((exPLDGeneric.mechanisms.get ⟨i, hi⟩).mechanism_spec.mechanism_type ≠
            MechanismType.GENERIC →
          ((PLDBudgetAccountant.compute_budgets (Real.sqrt 2) (fun _ => 0) 0
              0 exPLDGeneric).1.mechanisms.get ⟨i, hi'⟩).mechanism_spec._eps =
            (exPLDGeneric.mechanisms.get ⟨i, hi⟩).mechanism_spec._eps ∧
          ((PLDBudgetAccountant.compute_budgets (Real.sqrt 2) (fun _ => 0) 0
              0 exPLDGeneric).1.mechanisms.get ⟨i, hi'⟩).mechanism_spec._delta =
            (exPLDGeneric.mechanisms.get ⟨i, hi⟩).mechanism_spec._delta) := by
  have hsq : Real.sqrt 2 ≠ 0 := by positivity
  have h : (PLDBudgetAccountant.compute_budgets (Real.sqrt 2) (fun _ => (0 : ℝ)) 0 0
      exPLDGeneric).2 = .ok () := by
    norm_num [PLDBudgetAccountant.compute_budgets, exPLDGeneric,
      BudgetAccountant.finalize, checkNumberAggregationScopes, nAggTruthy,
      aggWeightsTruthy, pldAssignLoop, pldAssignOne, Except.map,
      MechanismSpec.set_eps_delta, div_eq_zero_iff, mul_eq_zero, hsq]
  exact pld_compute_budgets_assignment (fun _ => 0) 0 0 exPLDGeneric h
    (by simp [exPLDGeneric])

/-! ### Claim C10: eps/delta stay unreadable for non-generic PLD mechanisms -/

/-- Claim C10: after a successful PLD `compute_budgets()` with at least one
mechanism, the `eps` and `delta` fields of every `LAPLACE` or `GAUSSIAN`
mechanism are exactly what they were before (in particular still unset when
they were unset, so reading them still raises "not calculated yet"), while
every `GENERIC` mechanism has readable `eps` and `delta`. -/
theorem pld_compute_budgets_nongeneric_unset (s2 : α) (f : α → α) (fuel1 fuel2 : ℕ)
    (st : BudgetAccountant α)
    (h : (PLDBudgetAccountant.compute_budgets s2 f fuel1 fuel2 st).2 = .ok ())
    (hm : st.mechanisms ≠ []) :
    (PLDBudgetAccountant.compute_budgets s2 f fuel1 fuel2 st).1.mechanisms.length =
      st.mechanisms.length ∧
    ∀ i (hi : i < st.mechanisms.length)
        (hi' : i < (PLDBudgetAccountant.compute_budgets s2 f fuel1
          fuel2 st).1.mechanisms.length),
      (((st.mechanisms.get ⟨i, hi⟩).mechanism_spec.mechanism_type =
            MechanismType.LAPLACE ∨
        (st.mechanisms.get ⟨i, hi⟩).mechanism_spec.mechanism_type =
            MechanismType.GAUSSIAN) →
        ((PLDBudgetAccountant.compute_budgets s2 f fuel1 fuel2 st).1.mechanisms.get
            ⟨i, hi'⟩).mechanism_spec._eps =
          (st.mechanisms.get ⟨i, hi⟩).mechanism_spec._eps ∧
        ((PLDBudgetAccountant.compute_budgets s2 f fuel1 fuel2 st).1.mechanisms.get
            ⟨i, hi'⟩).mechanism_spec._delta =
          (st.mechanisms.get ⟨i, hi⟩).mechanism_spec._delta ∧
        ((st.mechanisms.get ⟨i, hi⟩).mechanism_spec._eps = none →
          ((PLDBudgetAccountant.compute_budgets s2 f fuel1 fuel2 st).1.mechanisms.get
              ⟨i, hi'⟩).mechanism_spec.eps =
            .error "Privacy budget is not calculated yet.") ∧
        ((st.mechanisms.get ⟨i, hi⟩).mechanism_spec._delta = none →
          ((PLDBudgetAccountant.compute_budgets s2 f fuel1 fuel2 st).1.mechanisms.get
              ⟨i, hi'⟩).mechanism_spec.delta =
            .error "Privacy budget is not calculated yet.")) ∧
      ((st.mechanisms.get ⟨i, hi⟩).mechanism_spec.mechanism_type =
          MechanismType.GENERIC →
        (∃ v, ((PLDBudgetAccountant.compute_budgets s2 f fuel1
            fuel2 st).1.mechanisms.get ⟨i, hi'⟩).mechanism_spec.eps = .ok v) ∧
        (∃ v, ((PLDBudgetAccountant.compute_budgets s2 f fuel1
            fuel2 st).1.mechanisms.get ⟨i, hi'⟩).mechanism_spec.delta = .ok v)) := by
  obtain ⟨mns, hmns, hmechs, _, _⟩ := pld_compute_ok s2 f fuel1 fuel2 st h hm
  refine ⟨by rw [hmechs]; exact List.length_map _ _, ?_⟩
  intro i hi hi'
  have hget : (PLDBudgetAccountant.compute_budgets s2 f fuel1
      fuel2 st).1.mechanisms.get ⟨i, hi'⟩ =
      pldAssignOne s2 st.total_epsilon st.total_delta mns
        (st.mechanisms.get ⟨i, hi⟩) := by
    simp [hmechs]
  rw [hget]
  by_cases ht : st.mechanisms[i].mechanism_spec.mechanism_type =
      MechanismType.GENERIC
  · refine ⟨fun hcon => ?_, fun _ => ⟨?_, ?_⟩⟩
    · exfalso
      rcases hcon with hcon | hcon <;> rw [List.get_eq_getElem, ht] at hcon <;>
        cases hcon
    · exact ⟨s2 / (st.mechanisms[i].sensitivity * mns / st.mechanisms[i].weight),
        by simp [pldAssignOne, MechanismSpec.set_eps_delta, MechanismSpec.eps, ht]⟩
    · exact ⟨s2 / (st.mechanisms[i].sensitivity * mns / st.mechanisms[i].weight) /
          st.total_epsilon * st.total_delta,
        by simp [pldAssignOne, MechanismSpec.set_eps_delta, MechanismSpec.delta, ht]⟩
  · refine ⟨fun _ => ⟨?_, ?_, fun hnone => ?_, fun hnone => ?_⟩,
      fun hcon => absurd hcon ht⟩ <;>
      simp [pldAssignOne, MechanismSpec.set_eps_delta, MechanismSpec.eps,
        MechanismSpec.delta, ht]
    · rw [List.get_eq_getElem] at hnone
      rw [hnone]
    · rw [List.get_eq_getElem] at hnone
      rw [hnone]

/-- Claim C10, witness: a PLD accountant with one Laplace and one generic
mechanism under `(2, 0)`: after a successful `compute_budgets()` the Laplace
mechanism's `eps`/`delta` fields are unchanged (still `none`, so reading
raises), while the generic mechanism's getters return values. -/
theorem pld_compute_budgets_nongeneric_unset_witness :
    ((PLDBudgetAccountant.compute_budgets (1 : ℚ) (fun _ => 0) 0 0
        exLaplaceGenericPLD).2 = .ok ()) ∧
    (PLDBudgetAccountant.compute_budgets (1 : ℚ) (fun _ => 0) 0 0
        exLaplaceGenericPLD).1.mechanisms.length =
      exLaplaceGenericPLD.mechanisms.length := by
  have h : (PLDBudgetAccountant.compute_budgets (1 : ℚ) (fun _ => (0 : ℚ)) 0 0
      exLaplaceGenericPLD).2 = .ok () := by
    norm_num [PLDBudgetAccountant.compute_budgets, exLaplaceGenericPLD,
      BudgetAccountant.finalize, checkNumberAggregationScopes, nAggTruthy,
      aggWeightsTruthy, pldAssignLoop, pldAssignOne, Except.map,
      MechanismSpec.set_eps_delta]
  exact ⟨h, (pld_compute_budgets_nongeneric_unset 1 (fun _ => 0) 0 0
    exLaplaceGenericPLD h (by simp [exLaplaceGenericPLD])).1⟩

/-! ### Claim C7: bracketing and binary search -/

/-- If some doubling of the start reaches a sufficient noise level, the
bracketing loop terminates and returns a value whose composed epsilon is
within budget. -/
lemma calculateMaxNoiseStd_reaches (f : α → α) (total_epsilon : α) :
    ∀ (n : ℕ) (m : α), f (m * 2 ^ (n + 1)) ≤ total_epsilon →
    ∃ M, calculateMaxNoiseStd f total_epsilon (n + 1) m = some M ∧
      f M ≤ total_epsilon := by
  intro n
  induction n with
  | zero =>
      intro m hm
      rw [pow_one] at hm
      exact ⟨m * 2, by simp [calculateMaxNoiseStd, hm], hm⟩
  | succ n ih =>
      intro m hm
      by_cases h2 : f (m * 2) ≤ total_epsilon
      · exact ⟨m * 2, by simp [calculateMaxNoiseStd, h2], h2⟩
      · have hm' : f ((m * 2) * 2 ^ (n + 1)) ≤ total_epsilon := by
          have hpow : (m * 2) * 2 ^ (n + 1) = m * 2 ^ (n + 1 + 1) := by
            rw [pow_succ]
            ring
          rw [hpow]
          exact hm
        obtain ⟨M, hM, hfM⟩ := ih (m * 2) hm'
        refine ⟨M, ?_, hfM⟩
        simp only [calculateMaxNoiseStd, h2, if_false]
        exact hM

/-- The binary-search loop: starting from a bracket whose upper end is within
budget and whose width fits `threshold * 2 ^ fuel`, it terminates with a
bracket of width at most `threshold` whose upper end is still within
budget. -/
lemma bsearchNoiseStd_spec (f : α → α) (total_epsilon threshold : α) :
    ∀ (n : ℕ) (low high : α), f high ≤ total_epsilon →
      high - low ≤ threshold * 2 ^ n →
    ∃ lo hi, bsearchNoiseStd f total_epsilon threshold n low high = some (lo, hi) ∧
      f hi ≤ total_epsilon ∧ hi - lo ≤ threshold := by
  intro n
  induction n with
  | zero =>
      intro low high hf hgap
      rw [pow_zero, mul_one] at hgap
      have hng : ¬(low + threshold < high) := by linarith
      exact ⟨low, high, by simp [bsearchNoiseStd, hng], hf, hgap⟩
  | succ n ih =>
      intro low high hf hgap
      have hhalf : threshold * 2 ^ (n + 1) / 2 = threshold * 2 ^ n := by
        rw [pow_succ]
        ring
      by_cases hguard : low + threshold < high
      · by_cases hfm : f ((high - low) / 2 + low) ≤ total_epsilon
        · obtain ⟨lo, hi, hb, h1, h2⟩ := ih low ((high - low) / 2 + low) hfm (by
            have hml : (high - low) / 2 + low - low = (high - low) / 2 := by ring
            rw [hml, ← hhalf]
            linarith)
          refine ⟨lo, hi, ?_, h1, h2⟩
          simp only [bsearchNoiseStd, hguard, if_true, hfm]
          exact hb
        · obtain ⟨lo, hi, hb, h1, h2⟩ := ih ((high - low) / 2 + low) high hf (by
            have hmh : high - ((high - low) / 2 + low) = (high - low) / 2 := by ring
            rw [hmh, ← hhalf]
            linarith)
          refine ⟨lo, hi, ?_, h1, h2⟩
          simp only [bsearchNoiseStd, hguard, if_true, hfm, if_false]
          exact hb
      · exact ⟨low, high, by simp [bsearchNoiseStd, hguard], hf, by linarith⟩

/-- In an Archimedean field, every value is below `c * 2 ^ n` for some `n`. -/
lemma exists_le_mul_two_pow [Archimedean α] (c x : α) (hc : 0 < c) :
    ∃ n : ℕ, x ≤ c * 2 ^ n := by
  obtain ⟨n, hn⟩ := exists_nat_ge (x / c)
  refine ⟨n, ?_⟩
  have h2 : (n : α) ≤ 2 ^ n := by
    exact_mod_cast (Nat.lt_two_pow n).le
  have hx : x / c ≤ 2 ^ n := le_trans hn h2
  calc x = x / c * c := by field_simp
    _ ≤ 2 ^ n * c := by
        exact mul_le_mul_of_nonneg_right hx (le_of_lt hc)
    _ = c * 2 ^ n := by ring

/-- Claim C7 (amended): for a monotonically non-increasing composed-epsilon
function that reaches the budget somewhere (without this extra hypothesis the
doubling loop of `_calculate_max_noise_std` never terminates, see the
counterexample), `_find_minimum_noise_std` terminates: some fuel suffices,
and the final bracket `(low, high)` satisfies `high - low ≤ 1e-4`, the
returned value is `high`, and the composed epsilon at `high` is at most
`total_epsilon`. -/
theorem find_minimum_noise_std_spec [Archimedean α] (f : α → α) (total_epsilon : α)
    (heps : 0 < total_epsilon)
    (hmono : ∀ x y : α, 0 ≤ x → x ≤ y → f y ≤ f x)
    (hterm : ∃ σ, 0 ≤ σ ∧ f σ ≤ total_epsilon) :
    ∃ (fuel1 fuel2 : ℕ) (maximum_noise_std low high : α),
      calculateMaxNoiseStd f total_epsilon fuel1 1 = some maximum_noise_std ∧
      bsearchNoiseStd f total_epsilon (1 / 10000) fuel2 0 maximum_noise_std =
        some (low, high) ∧
      findMinimumNoiseStd f total_epsilon fuel1 fuel2 = some high ∧
      high - low ≤ 1 / 10000 ∧ f high ≤ total_epsilon := by
  obtain ⟨σ, hσ0, hσ⟩ := hterm
  obtain ⟨k, hk⟩ := exists_le_mul_two_pow 2 σ (by norm_num)
  have hk' : σ ≤ 1 * 2 ^ (k + 1) := by
    rw [one_mul, pow_succ]
    linarith
  have hf1 : f (1 * 2 ^ (k + 1)) ≤ total_epsilon :=
    le_trans (hmono σ (1 * 2 ^ (k + 1)) hσ0 hk') hσ
  obtain ⟨M, hM, hfM⟩ := calculateMaxNoiseStd_reaches f total_epsilon k 1 hf1
  obtain ⟨n2, hn2⟩ := exists_le_mul_two_pow (1 / 10000) M (by norm_num)
  obtain ⟨lo, hi, hb, hfhi, hgap⟩ := bsearchNoiseStd_spec f total_epsilon (1 / 10000)
    n2 0 M hfM (by simpa using hn2)
  refine ⟨k + 1, n2, M, lo, hi, hM, hb, ?_, hgap, hfhi⟩
  unfold findMinimumNoiseStd
  rw [hM]
  dsimp only
  rw [hb]
  rfl

/-- The bracketing loop diverges on the constant function `3 > 2`. -/
lemma calculateMaxNoiseStd_const_none : ∀ (n : ℕ) (m : ℚ),
    calculateMaxNoiseStd (fun _ => 3) 2 n m = none := by
  intro n
  induction n with
  | zero => intro m; rfl
  | succ n ih =>
      intro m
      simp only [calculateMaxNoiseStd]
      rw [if_neg (by norm_num)]
      exact ih (m * 2)

/-- Claim C7, counterexample: the constant composed-epsilon function `3` is
monotonically non-increasing, yet with `total_epsilon = 2 > 0` the doubling
loop of `_calculate_max_noise_std` never exits, so `_find_minimum_noise_std`
does not terminate (no amount of fuel makes it return). -/
theorem find_minimum_noise_std_divergence_counterexample :
    (∀ x y : ℚ, 0 ≤ x → x ≤ y →
      (fun _ : ℚ => (3 : ℚ)) y ≤ (fun _ : ℚ => (3 : ℚ)) x) ∧
    (0 : ℚ) < 2 ∧
    ¬ ∃ (fuel1 fuel2 : ℕ) (r : ℚ),
        findMinimumNoiseStd (fun _ : ℚ => 3) 2 fuel1 fuel2 = some r := by
  refine ⟨fun x y hx hxy => le_refl 3, by norm_num, ?_⟩
  rintro ⟨fuel1, fuel2, r, hr⟩
  unfold findMinimumNoiseStd at hr
  rw [calculateMaxNoiseStd_const_none] at hr
  cases hr

/-- Claim C7, witness: the strictly decreasing composed-epsilon function
`sigma => 4 - sigma` with `total_epsilon = 2` satisfies all hypotheses, so
the search terminates with the claimed bracket properties. -/
theorem find_minimum_noise_std_spec_witness :
    ∃ (fuel1 fuel2 : ℕ) (maximum_noise_std low high : ℚ),
      calculateMaxNoiseStd (fun σ => 4 - σ) 2 fuel1 1 = some maximum_noise_std ∧
      bsearchNoiseStd (fun σ => 4 - σ) 2 (1 / 10000) fuel2 0 maximum_noise_std =
        some (low, high) ∧
      findMinimumNoiseStd (fun σ => 4 - σ) 2 fuel1 fuel2 = some high ∧
      high - low ≤ 1 / 10000 ∧ (fun σ : ℚ => 4 - σ) high ≤ 2 :=
  find_minimum_noise_std_spec (fun σ => 4 - σ) 2 (by norm_num)
    (fun x y hx hxy => sub_le_sub_left hxy 4) ⟨4, by norm_num⟩

end BudgetAccounting
